import Mathlib

/-!
Verification of the news-intelligence pipeline (feed ingestion, clustering,
structured event extraction, event store, weekly digest) against its
specification.  The JavaScript sources are shallowly embedded as executable
Lean definitions:

* JS strings are Lean strings (lists of characters); the JS string methods
  used by the code (toLowerCase on the ASCII range, trim, includes,
  template interpolation) are modelled by executable helpers below.
* JS numbers that the code manipulates are embedded as Nat, Int or Rat with
  the exact rounding formulas written out (Math.round x = floor (x + 1/2));
  NaN, where it can arise, is modelled as the none case of an Option.
* Timestamps (Date values, ISO strings, SQLite datetime text) are embedded
  as seconds since the epoch with the server timezone taken as UTC; the
  SQLite text format "YYYY-MM-DD HH:MM:SS" is order-isomorphic to this
  representation, so the comparison queries are faithfully represented by
  numeric comparisons.
* The SQLite tables (events, quarantine_events) are embedded as lists of
  typed rows; INSERT OR IGNORE with the UNIQUE(cluster_hash) constraint is
  an append guarded by a presence check, a plain INSERT is an append.
* Asynchronous functions are embedded at their decision core: the network
  call is replaced by its (already parsed) response, passed as an argument.

MD5 is implemented in full (RFC 1321) over Nat arithmetic.
-/

/-! ## JS string primitives -/

/-- Whitespace recognised by the trim method of JS strings (ASCII range). -/
def isJsWhitespace (c : Char) : Bool :=
  c == ' ' || c == '\t' || c == '\n' || c == '\r' || c == '\x0b' || c == '\x0c'

/-- Lowering of a single character, as toLowerCase acts on the ASCII range.
Characters outside A-Z (including non-ASCII letters) are kept unchanged. -/
def asciiLowerChar (c : Char) : Char :=
  match c with
  | 'A' => 'a' | 'B' => 'b' | 'C' => 'c' | 'D' => 'd' | 'E' => 'e' | 'F' => 'f'
  | 'G' => 'g' | 'H' => 'h' | 'I' => 'i' | 'J' => 'j' | 'K' => 'k' | 'L' => 'l'
  | 'M' => 'm' | 'N' => 'n' | 'O' => 'o' | 'P' => 'p' | 'Q' => 'q' | 'R' => 'r'
  | 'S' => 's' | 'T' => 't' | 'U' => 'u' | 'V' => 'v' | 'W' => 'w' | 'X' => 'x'
  | 'Y' => 'y' | 'Z' => 'z'
  | other => other

/-- Model of String.prototype.toLowerCase (ASCII range). -/
def jsToLower (s : String) : String := ⟨s.data.map asciiLowerChar⟩

/-- Dropping leading and trailing characters satisfying a predicate. -/
def trimCharList (p : Char → Bool) (l : List Char) : List Char :=
  ((l.dropWhile p).reverse.dropWhile p).reverse

/-- Model of String.prototype.trim. -/
def jsTrim (s : String) : String := ⟨trimCharList isJsWhitespace s.data⟩

/-- Contiguous-sublist test on character lists, used to model includes. -/
def charListIncl : List Char → List Char → Bool
  | _, [] => false
  | sub, l@(_ :: rest) => if sub.isPrefixOf l then true else charListIncl sub rest

/-- Model of String.prototype.includes (the haystack comes first). -/
def jsIncludes (s pat : String) : Bool :=
  if pat.data = [] then true else charListIncl pat.data s.data

/-- Lexicographic order on numeric keys, used for the JS default sort. -/
def natLex : List Nat → List Nat → Bool
  | [], _ => true
  | _ :: _, [] => false
  | x :: xs, y :: ys =>
    if x < y then true
    else if y < x then false
    else natLex xs ys

/-- Comparator of the JS default array sort on strings: lexicographic by
code unit.  Code points stand in for UTF-16 units (identical on the BMP). -/
def jsStrLe (a b : String) : Bool := natLex (a.data.map Char.toNat) (b.data.map Char.toNat)

/-- Model of the JS default comparator sort on an array of strings. -/
def jsSortStrings (l : List String) : List String :=
  l.insertionSort (fun a b => jsStrLe a b = true)

/-- Joining a list of strings with a separator, as Array.prototype.join. -/
def joinSep (sep : String) : List String → String
  | [] => ""
  | [x] => x
  | x :: rest => x ++ sep ++ joinSep sep rest

/-- First-occurrence deduplication, as the JS Set constructor preserves
insertion order. -/
def dedupFirstGo {α : Type} [DecidableEq α] : List α → List α → List α
  | _, [] => []
  | seen, x :: xs =>
    if x ∈ seen then dedupFirstGo seen xs else x :: dedupFirstGo (x :: seen) xs

/-- Spread of a JS Set built from a list: distinct elements in first-occurrence
order. -/
def dedupFirst {α : Type} [DecidableEq α] (l : List α) : List α := dedupFirstGo [] l

/-- Rounding of the quotient a / b (b positive) as Math.round: half-integers
round toward positive infinity, floor (q + 1/2) = fdiv (2a + b) (2b). -/
def jsRoundDiv (a b : Int) : Int := (2 * a + b).fdiv (2 * b)

/-- Math.round on an exact rational, floor (q + 1/2), computed on the
numerator and denominator. -/
def jsRound (q : Rat) : Int := (2 * q.num + (q.den : Int)).fdiv (2 * (q.den : Int))

/-! ## MD5 (RFC 1321) over Nat arithmetic -/

/-- The 32-bit modulus. -/
def M32 : Nat := 4294967296

/-- Addition modulo 2 to the 32. -/
def add32 (a b : Nat) : Nat := (a + b) % M32

/-- Bitwise complement within 32 bits. -/
def not32 (x : Nat) : Nat := (M32 - 1) - (x % M32)

/-- Left rotation of a 32-bit word by s places. -/
def rotl32 (x s : Nat) : Nat := ((x % M32) * 2 ^ s + (x % M32) / 2 ^ (32 - s)) % M32

/-- Round function F of MD5. -/
def md5F (b c d : Nat) : Nat := (b &&& c) ||| (not32 b &&& d)

/-- Round function G of MD5. -/
def md5G (b c d : Nat) : Nat := (b &&& d) ||| (c &&& not32 d)

/-- Round function H of MD5. -/
def md5H (b c d : Nat) : Nat := b ^^^ c ^^^ d

/-- Round function I of MD5. -/
def md5I (b c d : Nat) : Nat := c ^^^ (b ||| not32 d)

/-- Per-round shift amounts of MD5. -/
def md5S : List Nat :=
  [7, 12, 17, 22, 7, 12, 17, 22, 7, 12, 17, 22, 7, 12, 17, 22,
   5, 9, 14, 20, 5, 9, 14, 20, 5, 9, 14, 20, 5, 9, 14, 20,
   4, 11, 16, 23, 4, 11, 16, 23, 4, 11, 16, 23, 4, 11, 16, 23,
   6, 10, 15, 21, 6, 10, 15, 21, 6, 10, 15, 21, 6, 10, 15, 21]

/-- Per-round additive constants of MD5 (floor of 2^32 times abs sin (i+1)). -/
def md5K : List Nat :=
  [3614090360, 3905402710, 606105819, 3250441966,
   4118548399, 1200080426, 2821735955, 4249261313,
   1770035416, 2336552879, 4294925233, 2304563134,
   1804603682, 4254626195, 2792965006, 1236535329,
   4129170786, 3225465664, 643717713, 3921069994,
   3593408605, 38016083, 3634488961, 3889429448,
   568446438, 3275163606, 4107603335, 1163531501,
   2850285829, 4243563512, 1735328473, 2368359562,
   4294588738, 2272392833, 1839030562, 4259657740,
   2763975236, 1272893353, 4139469664, 3200236656,
   681279174, 3936430074, 3572445317, 76029189,
   3654602809, 3873151461, 530742520, 3299628645,
   4096336452, 1126891415, 2878612391, 4237533241,
   1700485571, 2399980690, 4293915773, 2240044497,
   1873313359, 4264355552, 2734768916, 1309151649,
   4149444226, 3174756917, 718787259, 3951481745]

/-- The 64 rounds of one MD5 block, descending fuel encodes the round index. -/
def md5Loop (x : List Nat) : Nat → Nat → Nat → Nat → Nat → Nat × Nat × Nat × Nat
  | 0, a, b, c, d => (a, b, c, d)
  | fuel + 1, a, b, c, d =>
    let i := 64 - (fuel + 1)
    let fg : Nat × Nat :=
      if i < 16 then (md5F b c d, i)
      else if i < 32 then (md5G b c d, (5 * i + 1) % 16)
      else if i < 48 then (md5H b c d, (3 * i + 5) % 16)
      else (md5I b c d, (7 * i) % 16)
    let sum := add32 (add32 (add32 a fg.1) (md5K.getD i 0)) (x.getD fg.2 0)
    md5Loop x fuel d (add32 b (rotl32 sum (md5S.getD i 0))) b c

/-- Grouping of a byte list into little-endian 32-bit words. -/
def wordsOf : List Nat → List Nat
  | b0 :: b1 :: b2 :: b3 :: rest => (b0 + 256 * b1 + 65536 * b2 + 16777216 * b3) :: wordsOf rest
  | _ => []

/-- Splitting into blocks of 64 bytes; the fuel bounds the number of blocks. -/
def chunks64 : Nat → List Nat → List (List Nat)
  | 0, _ => []
  | _, [] => []
  | fuel + 1, l => l.take 64 :: chunks64 fuel (l.drop 64)

/-- Little-endian encoding of a 64-bit length in eight bytes. -/
def le8 (n : Nat) : List Nat :=
  [n % 256, n / 256 % 256, n / 65536 % 256, n / 16777216 % 256,
   n / 4294967296 % 256, n / 1099511627776 % 256,
   n / 281474976710656 % 256, n / 72057594037927936 % 256]

/-- MD5 padding: a 0x80 byte, zeros to 56 mod 64, then the bit length. -/
def md5Pad (msg : List Nat) : List Nat :=
  let padLen := (119 - msg.length % 64) % 64
  msg ++ 128 :: List.replicate padLen 0 ++ le8 (8 * msg.length % 18446744073709551616)

/-- Compression of one 64-byte block into the running state. -/
def md5Chunk (st : Nat × Nat × Nat × Nat) (chunk : List Nat) : Nat × Nat × Nat × Nat :=
  let w := wordsOf chunk
  let r := md5Loop w 64 st.1 st.2.1 st.2.2.1 st.2.2.2
  (add32 st.1 r.1, add32 st.2.1 r.2.1, add32 st.2.2.1 r.2.2.1, add32 st.2.2.2 r.2.2.2)

/-- Two lowercase hex digits of a byte. -/
def byteHex (b : Nat) : List Char := [Nat.digitChar (b / 16 % 16), Nat.digitChar (b % 16)]

/-- Little-endian hex rendering of one 32-bit state word. -/
def word32Hex (w : Nat) : List Char :=
  byteHex (w % 256) ++ byteHex (w / 256 % 256) ++ byteHex (w / 65536 % 256) ++
    byteHex (w / 16777216 % 256)

/-- UTF-8 bytes of one character. -/
def charUtf8 (c : Char) : List Nat :=
  let n := c.toNat
  if n < 128 then [n]
  else if n < 2048 then [192 + n / 64, 128 + n % 64]
  else if n < 65536 then [224 + n / 4096, 128 + n / 64 % 64, 128 + n % 64]
  else [240 + n / 262144, 128 + n / 4096 % 64, 128 + n / 64 % 64, 128 + n % 64]

/-- UTF-8 encoding of a string, the input representation hashed by the
node crypto md5 digest. -/
def utf8Bytes (s : String) : List Nat := s.data.flatMap charUtf8

/-- Lowercase hex MD5 digest of a string, as crypto.createHash md5 update
digest hex. -/
def md5hex (s : String) : String :=
  let msg := md5Pad (utf8Bytes s)
  let st := (chunks64 (msg.length + 1) msg).foldl md5Chunk
    (1732584193, 4023233417, 2562383102, 271733878)
  ⟨word32Hex st.1 ++ word32Hex st.2.1 ++ word32Hex st.2.2.1 ++ word32Hex st.2.2.2⟩

/-! ## Articles and clusters -/

/-- A normalized syndication Article, the record built by normalizeArticle.
publishedAt is carried as seconds since the epoch (the ISO-8601 strings of
the source are order-isomorphic to it). -/
structure Article where
  id : String
  title : String
  description : String
  url : String
  image : Option String
  publishedAt : Nat
  source : String
  sourceCategory : String
  sourceReliability : String
deriving DecidableEq

/-- A Cluster as derived by clusterArticles. latestDate is in the same
epoch representation as Article.publishedAt. -/
structure Cluster where
  articles : List Article
  primaryArticle : Article
  sourceCount : Nat
  sources : List String
  latestDate : Nat
  category : String
  image : Option String
deriving DecidableEq

/-- Function clusterHash of db.js: MD5 of the pipe-joined default-sorted
lowercased trimmed titles of the cluster articles. -/
def clusterHash (cluster : Cluster) : String :=
  md5hex (joinSep "|"
    (jsSortStrings (cluster.articles.map (fun a => jsTrim (jsToLower a.title)))))

/-! ## JSON values and JS coercions

The output of JSON.parse on the model response.  A JSON object field is
embedded as an Option JsonV on the record carrying it: none is the absent
field (undefined in JS), some JsonV.null the explicit null. -/

/-- JSON values (nested objects do not occur in the schema). -/
inductive JsonV : Type where
  | null : JsonV
  | str : String → JsonV
  | num : Rat → JsonV
  | bool : Bool → JsonV
  | arr : List JsonV → JsonV

/-- JS truthiness of a possibly absent JSON value: undefined, null, 0, the
empty string and false are falsy, arrays are truthy. -/
def jsTruthy : Option JsonV → Bool
  | none => false
  | some JsonV.null => false
  | some (JsonV.str s) => !(s == "")
  | some (JsonV.num q) => !(q == 0)
  | some (JsonV.bool b) => b
  | some (JsonV.arr _) => true

/-- The JS loose test x == null, true exactly on undefined and null. -/
def jsIsNullish : Option JsonV → Bool
  | none => true
  | some JsonV.null => true
  | _ => false

/-- The JS test typeof x === string. -/
def jsIsString : Option JsonV → Bool
  | some (JsonV.str _) => true
  | _ => false

/-- Simple decimal numeral parser modelling Number on a string: optional
sign, digits, optional fractional digits.  Other shapes (exponents, hex,
Infinity) give none, the NaN of the model. -/
def parseDigits : List Char → Option Nat
  | [] => none
  | l => l.foldl (fun acc c =>
      match acc with
      | none => none
      | some n => if c.isDigit then some (n * 10 + (c.toNat - 48)) else none)
      (some 0)

/-- Value of a decimal fraction part as a rational together with success. -/
def parseFrac (l : List Char) : Option Rat :=
  match parseDigits l with
  | none => none
  | some n => some (mkRat (Int.ofNat n) (10 ^ l.length))

/-- Model of the JS ToNumber coercion on a string (none models NaN). -/
def parseJsNumber (s : String) : Option Rat :=
  let t := (jsTrim s).data
  if t = [] then some 0
  else
    let core : List Char → Option Rat := fun l =>
      match l.splitOn '.' with
      | [intPart] => (parseDigits intPart).map (fun n => (Int.ofNat n : Rat))
      | [intPart, fracPart] =>
        match parseDigits intPart, parseFrac fracPart with
        | some n, some f => some ((Int.ofNat n : Rat) + f)
        | _, _ => none
      | _ => none
    match t with
    | '-' :: rest => (core rest).map (fun q => -q)
    | '+' :: rest => core rest
    | _ => core t

/-- Model of the JS ToNumber coercion as applied by numeric comparison and
Math functions; none models NaN.  An array coerces through its string form;
only the empty array (which coerces to 0) is modelled, other arrays give
the NaN case. -/
def jsToNumber : Option JsonV → Option Rat
  | none => none
  | some JsonV.null => some 0
  | some (JsonV.num q) => some q
  | some (JsonV.str s) => parseJsNumber s
  | some (JsonV.bool b) => some (if b then 1 else 0)
  | some (JsonV.arr []) => some 0
  | some (JsonV.arr _) => none

/-- Rational order test by cross multiplication (denominators positive);
used so that concrete instances evaluate inside the kernel. -/
def ratLtB (a b : Rat) : Bool := decide (a.num * (b.den : Int) < b.num * (a.den : Int))

/-- The JS comparison x < c for a numeric constant c: false when x is NaN. -/
def jsLtNum (x : Option JsonV) (c : Rat) : Bool :=
  match jsToNumber x with
  | some q => ratLtB q c
  | none => false

/-- The JS comparison x > c for a numeric constant c: false when x is NaN. -/
def jsGtNum (x : Option JsonV) (c : Rat) : Bool :=
  match jsToNumber x with
  | some q => ratLtB c q
  | none => false

/-- Membership test of a JS Set of strings, false on any non-string. -/
def jsHasStr (set : List String) : Option JsonV → Bool
  | some (JsonV.str s) => set.contains s
  | _ => false

/-- Decimal digits of n with leading zeros up to the given width. -/
def natDecimal : Nat → Nat → List Char
  | _, 0 => []
  | n, w + 1 => natDecimal (n / 10) w ++ [Nat.digitChar (n % 10)]

/-- Rendering of a rational in template interpolation, for the error message
strings of the validator; terminating decimals only (which covers every
value JSON.parse produces). -/
def ratToDisplay (q : Rat) : String :=
  let sign := if q.num < 0 then "-" else ""
  let n := q.num.natAbs
  if q.den == 1 then sign ++ Nat.repr n
  else
    let w := (Nat.repr q.den).length - 1
    if 10 ^ w == q.den then
      sign ++ Nat.repr (n / q.den) ++ "." ++ ⟨natDecimal (n % q.den) w⟩
    else sign ++ Nat.repr n ++ "/" ++ Nat.repr q.den

/-- Template interpolation of a possibly absent JSON value, as in the
validator error messages: undefined and null print their names. -/
def jsDisplay : Option JsonV → String
  | none => "undefined"
  | some JsonV.null => "null"
  | some (JsonV.str s) => s
  | some (JsonV.num q) => ratToDisplay q
  | some (JsonV.bool b) => if b then "true" else "false"
  | some (JsonV.arr _) => ""

/-- The rational one half, for the 0.5 defaults of the source. -/
def ratHalf : Rat := ⟨1, 2, by decide, by decide⟩

/-- The rational three tenths, the 0.3 low-confidence floor of the source. -/
def ratThreeTenths : Rat := ⟨3, 10, by decide, by decide⟩

/-! ## The event store (db.js)

Rows carry the SQL column types; JSON-array-in-TEXT columns are embedded as
string lists.  extracted_at and quarantined_at are the server-set insert
instants in epoch seconds. -/

/-- A row of the events table. -/
structure EventRec where
  cluster_hash : String
  summary : String
  country : String
  regions : List String
  event_type : String
  event_subtype : Option String
  severity : Option Int
  scope : String
  source_tier : String
  verification_status : String
  confidence : Rat
  rationale : Option String
  actors : List String
  actors_normalized : Option (List String)
  model_version : Option String
  prompt_version : Option String
  article_urls : List String
  article_count : Nat
  sources : List String
  primary_url : String
  primary_title : String
  published_at : Nat
  extracted_at : Nat
deriving DecidableEq

/-- A row of the quarantine_events table. -/
structure QuarantineRec where
  cluster_hash : String
  raw_output : Option String
  error_reasons : List String
  primary_title : Option String
  primary_url : Option String
  sources : List String
  article_urls : List String
  model_version : Option String
  prompt_version : Option String
  quarantined_at : Nat
deriving DecidableEq

/-- The embedded store: the two append-only tables. -/
structure DB where
  events : List EventRec
  quarantine : List QuarantineRec
deriving DecidableEq

/-- Function eventExists of db.js: a SELECT 1 by cluster_hash against
events, then against quarantine_events. -/
def eventExists (db : DB) (hash : String) : Bool :=
  if db.events.any (fun e => e.cluster_hash == hash) then true
  else db.quarantine.any (fun q => q.cluster_hash == hash)

/-- Function insertEvent of db.js: INSERT OR IGNORE under the
UNIQUE(cluster_hash) constraint, so a duplicate hash leaves the table
unchanged.  The null-defaulting the source applies at the binding site is
performed where the row is built (extractEventData). -/
def insertEvent (db : DB) (row : EventRec) : DB :=
  if db.events.any (fun e => e.cluster_hash == row.cluster_hash) then db
  else { db with events := db.events ++ [row] }

/-- Function insertQuarantine of db.js: a plain INSERT, cluster_hash not
unique in this table. -/
def insertQuarantine (db : DB) (row : QuarantineRec) : DB :=
  { db with quarantine := db.quarantine ++ [row] }

/-! ## The extractor -/

/-- The provenance model version constant of the extractor. -/
def MODEL_VERSION : String := "llama-3.3-70b-versatile"

/-- The provenance prompt version constant of the extractor. -/
def PROMPT_VERSION : String := "v2"

/-- The event type enumeration of the validator. -/
def VALID_EVENT_TYPES : List String :=
  ["security", "political", "economic", "humanitarian", "infrastructure", "legal"]

/-- The scope enumeration of the validator. -/
def VALID_SCOPES : List String := ["local", "state", "national", "cross_border"]

/-- The verification status enumeration of the validator. -/
def VALID_VERIFICATION : List String := ["confirmed", "reported", "unverified"]

/-- The case-insensitive actor alias table of the extractor. -/
def ACTOR_ALIASES : List (String × String) :=
  [("govt of south sudan", "Government of South Sudan"),
   ("government of south sudan", "Government of South Sudan"),
   ("goss", "Government of South Sudan"),
   ("south sudan government", "Government of South Sudan"),
   ("govt of sudan", "Government of Sudan"),
   ("government of sudan", "Government of Sudan"),
   ("sudan government", "Government of Sudan"),
   ("sudanese government", "Government of Sudan"),
   ("saf", "Sudan Armed Forces (SAF)"),
   ("sudan armed forces", "Sudan Armed Forces (SAF)"),
   ("splm-io", "SPLM-IO"),
   ("splm/a-io", "SPLM-IO"),
   ("splm - io", "SPLM-IO"),
   ("splm/spla-io", "SPLM-IO"),
   ("splm", "SPLM"),
   ("unmiss", "UNMISS"),
   ("un mission in south sudan", "UNMISS"),
   ("united nations mission in south sudan", "UNMISS"),
   ("rsf", "Rapid Support Forces (RSF)"),
   ("rapid support forces", "Rapid Support Forces (RSF)"),
   ("igad", "IGAD"),
   ("intergovernmental authority on development", "IGAD"),
   ("unhcr", "UNHCR"),
   ("un refugee agency", "UNHCR"),
   ("wfp", "WFP"),
   ("world food programme", "WFP"),
   ("world food program", "WFP"),
   ("icrc", "ICRC"),
   ("international committee of the red cross", "ICRC"),
   ("red cross", "ICRC"),
   ("au", "African Union"),
   ("african union", "African Union"),
   ("ocha", "UN OCHA"),
   ("unicef", "UNICEF"),
   ("iom", "IOM"),
   ("international organization for migration", "IOM"),
   ("msf", "MSF"),
   ("doctors without borders", "MSF"),
   ("médecins sans frontières", "MSF")]

/-- Object-key lookup in the alias table. -/
def aliasLookup (key : String) : Option String :=
  (ACTOR_ALIASES.find? (fun p => p.1 == key)).map (fun p => p.2)

/-- Function normalizeActor of the extractor over own keys of the alias
table: the lowercased trimmed input through the table, otherwise the
trimmed input (every alias value is a non-empty string, so the JS fallback
disjunction is a plain lookup).  The JS bracket access additionally
resolves inherited Object-prototype keys to non-string values; that
behaviour is captured by normalizeActorJS below, and this own-key
restriction is what the consumers (normalizeActors, renormalizeActorList)
see on actor names that are not prototype property names. -/
def normalizeActor (actor : String) : String :=
  match aliasLookup (jsTrim (jsToLower actor)) with
  | some v => v
  | none => jsTrim actor

/-- The property names every plain JS object inherits from the Object
prototype: bracket access on the alias table resolves these (when not
shadowed by an own key) to inherited functions, or for the dunder proto
key to the prototype object — all truthy non-strings. -/
def OBJECT_PROTOTYPE_KEYS : List String :=
  ["constructor", "hasOwnProperty", "isPrototypeOf", "propertyIsEnumerable",
   "toLocaleString", "toString", "valueOf", "__proto__",
   "__defineGetter__", "__defineSetter__", "__lookupGetter__", "__lookupSetter__"]

/-- A value the source normalizeActor can return: a string, or a truthy
non-string inherited from the Object prototype (a function, or the
prototype object itself). -/
inductive JsActorValue : Type where
  | str : String → JsActorValue
  | inherited : String → JsActorValue
deriving DecidableEq

/-- Function normalizeActor of the extractor with the full JS property
access: an own alias key wins, otherwise an inherited Object-prototype key
yields its truthy non-string value (returned by the or-else), otherwise
the access is undefined and the trimmed input is returned. -/
def normalizeActorJS (actor : String) : JsActorValue :=
  let key := jsTrim (jsToLower actor)
  match aliasLookup key with
  | some v => JsActorValue.str v
  | none =>
    if OBJECT_PROTOTYPE_KEYS.contains key then JsActorValue.inherited key
    else JsActorValue.str (jsTrim actor)

/-- One further application of the source normalizeActor to a previous
result: on a string it recurses, on an inherited non-string the call to
toLowerCase throws a TypeError, modelled as none. -/
def normalizeActorJSStep : JsActorValue → Option JsActorValue
  | JsActorValue.str s => some (normalizeActorJS s)
  | JsActorValue.inherited _ => none

/-- Helper of normalizeActors carrying the set of lowercased names already
seen. -/
def normalizeActorsGo : List String → List String → List String
  | _, [] => []
  | seen, a :: rest =>
    let n := normalizeActor a
    if n ≠ "" ∧ jsToLower n ∉ seen then
      n :: normalizeActorsGo (jsToLower n :: seen) rest
    else normalizeActorsGo seen rest

/-- Function normalizeActors of the extractor: normalize each actor,
dropping empties and case-insensitive duplicates, first occurrence kept. -/
def normalizeActors (actors : List String) : List String := normalizeActorsGo [] actors

/-- The source tier table of the extractor. -/
def SOURCE_TIERS : List (String × String) :=
  [("BBC Africa", "tier1"), ("Reuters", "tier1"), ("Al Jazeera", "tier1"),
   ("The Guardian Africa", "tier1"), ("France24 Africa", "tier1"),
   ("UN News Africa", "tier1"), ("VOA Africa", "tier1"),
   ("Radio Tamazuj", "tier2"), ("Eye Radio", "tier2"), ("Sudan Tribune", "tier2"),
   ("Dabanga Radio", "tier2"), ("Africanews", "tier2"),
   ("Nyamilepedia", "tier3"), ("Google News", "tier3")]

/-- Tier of one source name in the table. -/
def tierOf (s : String) : Option String :=
  (SOURCE_TIERS.find? (fun p => p.1 == s)).map (fun p => p.2)

/-- Function getSourceTier of the extractor: the highest tier present among
the cluster sources, tier3 by default. -/
def getSourceTier (sources : List String) : String :=
  if sources.any (fun s => tierOf s == some "tier1") then "tier1"
  else if sources.any (fun s => tierOf s == some "tier2") then "tier2"
  else "tier3"

/-- The parsed model response: each schema field of the JSON object, absent
fields as none. -/
structure LLMData where
  summary : Option JsonV := none
  country : Option JsonV := none
  regions : Option JsonV := none
  eventType : Option JsonV := none
  eventSubtype : Option JsonV := none
  severity : Option JsonV := none
  scope : Option JsonV := none
  verificationStatus : Option JsonV := none
  confidence : Option JsonV := none
  actors : Option JsonV := none
  rationale : Option JsonV := none

/-- Function validateExtraction of the extractor: the pair of hard errors
(schema violations) and soft errors (borderline quality), in source order. -/
def validateExtraction (data : LLMData) : List String × List String :=
  let hardErrors :=
    (if !jsTruthy data.country || !jsIsString data.country then
      ["missing country"] else []) ++
    (if !jsTruthy data.eventType || !jsHasStr VALID_EVENT_TYPES data.eventType then
      ["invalid eventType: " ++ jsDisplay data.eventType] else []) ++
    (if jsIsNullish data.severity || jsLtNum data.severity 1 || jsGtNum data.severity 5 then
      ["invalid severity: " ++ jsDisplay data.severity] else []) ++
    (if jsTruthy data.scope && !jsHasStr VALID_SCOPES data.scope then
      ["invalid scope: " ++ jsDisplay data.scope] else []) ++
    (if jsTruthy data.verificationStatus &&
        !jsHasStr VALID_VERIFICATION data.verificationStatus then
      ["invalid verificationStatus: " ++ jsDisplay data.verificationStatus] else []) ++
    (if !jsIsNullish data.confidence &&
        (jsLtNum data.confidence 0 || jsGtNum data.confidence 1) then
      ["invalid confidence: " ++ jsDisplay data.confidence] else [])
  let softErrors :=
    (if !jsIsNullish data.confidence && jsLtNum data.confidence ratThreeTenths then
      ["confidence too low: " ++ jsDisplay data.confidence] else []) ++
    (if !jsTruthy data.regions ||
        (match data.regions with
         | some (JsonV.arr xs) => xs.isEmpty
         | _ => false) then
      ["missing regions"] else [])
  (hardErrors, softErrors)

/-- String elements of a JSON array field, the empty list on any other
shape.  In the source a non-array is replaced by an empty array; a
non-string element would throw in normalizeActor and route the whole
response to the catch-all quarantine, so such elements do not reach a
persisted event and are dropped here. -/
def jarrStrings : Option JsonV → List String
  | some (JsonV.arr xs) =>
    xs.filterMap (fun v => match v with | JsonV.str s => some s | _ => none)
  | _ => []

/-- String content of a validated JSON string field (the validator rules out
the other shapes on the paths where this is read). -/
def jstr : Option JsonV → String
  | some (JsonV.str s) => s
  | _ => ""

/-- Optional short string field guarded by JS truthiness, as
data.eventSubtype or null. -/
def jstrOpt : Option JsonV → Option String
  | some (JsonV.str s) => if s == "" then none else some s
  | _ => none

/-- The clamped rounded severity of the persisted event:
Math.min (5, Math.max (1, Math.round severity)), with the NaN of a
non-numeric coercion propagated as none (stored as NULL). -/
def clampSeverity (severity : Option JsonV) : Option Int :=
  match jsToNumber severity with
  | some q => some (min 5 (max 1 (jsRound q)))
  | none => none

/-- The persisted confidence: confidence falsy gives the 0.5 default, a
number clamps into the unit interval, the NaN case falls back to 0.5 at the
INSERT binding (the source applies confidence or-else 0.5 there as well). -/
def clampConfidence (confidence : Option JsonV) : Rat :=
  let cval := if jsTruthy confidence = false then some (JsonV.num ratHalf) else confidence
  match jsToNumber cval with
  | some q => let r := min 1 (max 0 q); if r == 0 then ratHalf else r
  | none => ratHalf

/-- Function extractEventData of the extractor, embedded from the point at
which the model response has been received and parsed: data is the parsed
JSON object, rawOutput the raw response text, now the server instant that
SQLite stamps on the inserted row.  Returns the store after the call and
the persisted event when one was inserted; the quarantine branches mirror
lines 904-939 of the source, the accept branch lines 941-969. -/
def extractEventData (db : DB) (cluster : Cluster) (data : LLMData)
    (rawOutput : String) (now : Nat) : DB × Option EventRec :=
  let hash := clusterHash cluster
  if eventExists db hash then (db, none)
  else
    let sources := dedupFirst (cluster.articles.map (fun a => a.source))
    let articleUrls := (cluster.articles.map (fun a => a.url)).filter (fun u => u ≠ "")
    let v := validateExtraction data
    if v.1 ≠ [] then
      (insertQuarantine db
        { cluster_hash := hash, raw_output := some rawOutput, error_reasons := v.1,
          primary_title := some cluster.primaryArticle.title,
          primary_url := some cluster.primaryArticle.url,
          sources := sources, article_urls := articleUrls,
          model_version := some MODEL_VERSION, prompt_version := some PROMPT_VERSION,
          quarantined_at := now }, none)
    else if v.2 ≠ [] ∧ jsIsNullish data.confidence = false ∧
        jsLtNum data.confidence ratThreeTenths = true then
      (insertQuarantine db
        { cluster_hash := hash, raw_output := some rawOutput, error_reasons := v.2,
          primary_title := some cluster.primaryArticle.title,
          primary_url := some cluster.primaryArticle.url,
          sources := sources, article_urls := articleUrls,
          model_version := some MODEL_VERSION, prompt_version := some PROMPT_VERSION,
          quarantined_at := now }, none)
    else
      let rawActors := jarrStrings data.actors
      let ev : EventRec :=
        { cluster_hash := hash
        , summary := if jsTruthy data.summary then jsDisplay data.summary
                     else cluster.primaryArticle.title
        , country := jstr data.country
        , regions := jarrStrings data.regions
        , event_type := jstr data.eventType
        , event_subtype := jstrOpt data.eventSubtype
        , severity := clampSeverity data.severity
        , scope := if jsHasStr VALID_SCOPES data.scope then jstr data.scope else "local"
        , source_tier := getSourceTier sources
        , verification_status :=
            if jsHasStr VALID_VERIFICATION data.verificationStatus then
              jstr data.verificationStatus
            else "reported"
        , confidence := clampConfidence data.confidence
        , rationale := jstrOpt data.rationale
        , actors := rawActors
        , actors_normalized := some (normalizeActors rawActors)
        , model_version := some MODEL_VERSION
        , prompt_version := some PROMPT_VERSION
        , article_urls := articleUrls
        , article_count := if cluster.articles.length == 0 then 1 else cluster.articles.length
        , sources := sources
        , primary_url := cluster.primaryArticle.url
        , primary_title := cluster.primaryArticle.title
        , published_at := cluster.latestDate
        , extracted_at := now }
      (insertEvent db ev, some ev)

/-- The pending set of one background extraction cycle (extractAllEvents):
the clusters whose hash is in neither table; only these are iterated, so
only these give rise to a model call. -/
def pendingClusters (db : DB) (clusters : List Cluster) : List Cluster :=
  clusters.filter (fun c => !eventExists db (clusterHash c))

/-! ## The feed ingestor (relevance filter and normalization) -/

/-- Title-sufficient South Sudan keywords. -/
def STRONG_KEYWORDS_SS : List String :=
  ["south sudan", "south sudanese", "salva kiir", "riek machar", "unmiss"]

/-- Title-sufficient Sudan keywords. -/
def STRONG_KEYWORDS_SUDAN : List String :=
  ["sudan war", "sudan conflict", "sudan crisis", "sudanese army",
   "sudanese military", "khartoum", "rsf", "rapid support forces",
   "abdel fattah al-burhan", "al-burhan", "hemedti", "dagalo"]

/-- Body-counted South Sudan keywords. -/
def SUPPORTING_KEYWORDS_SS : List String :=
  ["south sudan", "south sudanese", "juba", "salva kiir", "riek machar",
   "unmiss", "igad", "malakal", "bentiu", "yambio", "torit", "aweil",
   "rumbek", "jonglei", "upper nile", "unity state", "equatoria",
   "bahr el ghazal", "abyei", "splm", "spla"]

/-- Body-counted Sudan keywords. -/
def SUPPORTING_KEYWORDS_SUDAN : List String :=
  ["sudan", "sudanese", "khartoum", "darfur", "el fasher", "al-fashir",
   "port sudan", "omdurman", "rsf", "rapid support forces", "al-burhan",
   "hemedti", "dagalo", "saf", "sudan armed forces", "north darfur",
   "south darfur", "west darfur", "south kordofan", "blue nile",
   "white nile", "red sea state", "kassala", "gedaref", "gezira",
   "sennar", "janjaweed"]

/-- The fields isRelevantArticle reads off its argument.  The source takes
an arbitrary object; the normalized Article carries no contentSnippet or
content property, so those reads give undefined (none) on it. -/
structure RelevanceView where
  title : Option String
  contentSnippet : Option String
  content : Option String

/-- Function isRelevantArticle of the fetcher: strong keyword in the title,
the Sudan-in-title branch, or enough supporting keywords in the body, where
the body is the space-joined contentSnippet and content reads. -/
def isRelevantArticle (article : RelevanceView) : Bool :=
  let title := jsToLower (article.title.getD "")
  let body := jsToLower (article.contentSnippet.getD "" ++ " " ++ article.content.getD "")
  if STRONG_KEYWORDS_SS.any (fun kw => jsIncludes title kw) then true
  else if STRONG_KEYWORDS_SUDAN.any (fun kw => jsIncludes title kw) then true
  else if jsIncludes title "sudan" && !jsIncludes title "south sudan" &&
      (SUPPORTING_KEYWORDS_SUDAN.filter (fun kw => jsIncludes body kw)).length ≥ 2 then
    true
  else if (SUPPORTING_KEYWORDS_SS.filter (fun kw => jsIncludes body kw)).length ≥ 2 then
    true
  else if (SUPPORTING_KEYWORDS_SUDAN.filter (fun kw => jsIncludes body kw)).length ≥ 3 then
    true
  else false

/-- A parsed feed item, with the fields the fetcher reads.  Date fields are
carried in the epoch representation; url-resolution and image-extraction
inputs (media children, enclosures) are not carried: no claim depends on
the resolved url or the extracted image. -/
structure FeedItem where
  title : Option String := none
  contentSnippet : Option String := none
  content : Option String := none
  summary : Option String := none
  description : Option String := none
  guid : Option String := none
  link : Option String := none
  isoDate : Option Nat := none
  pubDate : Option Nat := none
deriving DecidableEq

/-- Removal of complete HTML tags, the global replace of the pattern
open-angle, one or more non-close-angle characters, close-angle; the fuel
bounds the scan length. -/
def stripTags : Nat → List Char → List Char
  | 0, l => l
  | _ + 1, [] => []
  | fuel + 1, c :: rest =>
    if c = '<' then
      let inside := rest.takeWhile (fun x => x ≠ '>')
      let remainder := rest.dropWhile (fun x => x ≠ '>')
      match remainder with
      | '>' :: after => if inside = [] then c :: stripTags fuel rest else stripTags fuel after
      | _ => c :: stripTags fuel rest
    else c :: stripTags fuel rest

/-- The global replace of the non-breaking-space entity by a space. -/
def replaceNbsp : Nat → List Char → List Char
  | 0, l => l
  | _ + 1, [] => []
  | fuel + 1, l@(c :: rest) =>
    if ['&', 'n', 'b', 's', 'p', ';'].isPrefixOf l then
      ' ' :: replaceNbsp fuel (l.drop 6)
    else c :: replaceNbsp fuel rest

/-- First truthy string among the listed fields, as a JS or-chain over
possibly absent strings (the empty string is falsy). -/
def firstTruthyStr : List (Option String) → Option String
  | [] => none
  | none :: rest => firstTruthyStr rest
  | some s :: rest => if s = "" then firstTruthyStr rest else some s

/-- Function normalizeArticle of the fetcher.  The description is the first
truthy of contentSnippet, summary, content, cut to 500 characters, trimmed,
tag-stripped, entity-replaced and trimmed again.  The aggregator url
resolution is not embedded (no claim depends on it): url is the feed link;
likewise image extraction from media fields is not embedded.  now supplies
the new-Date fallback for a missing date. -/
def normalizeArticle (item : FeedItem) (sourceName sourceCategory sourceReliability : String)
    (now : Nat) : Article :=
  let raw := ((firstTruthyStr [item.contentSnippet, item.summary, item.content]).getD "").data
  let cut := jsTrim ⟨raw.take 500⟩
  let desc := jsTrim ⟨replaceNbsp (cut.data.length + 1) (stripTags (cut.data.length + 1) cut.data)⟩
  { id := (firstTruthyStr [item.guid, item.link]).getD
      (sourceName ++ "-" ++ (item.title.getD "undefined"))
  , title := jsTrim (item.title.getD "")
  , description := desc
  , url := item.link.getD ""
  , image := none
  , publishedAt := item.isoDate.getD (item.pubDate.getD now)
  , source := sourceName
  , sourceCategory := sourceCategory
  , sourceReliability := sourceReliability }

/-- Property reads of isRelevantArticle on a normalized Article: the record
has no contentSnippet or content field, so both reads are undefined. -/
def articleRelevanceView (a : Article) : RelevanceView :=
  { title := some a.title, contentSnippet := none, content := none }

/-- Property reads of isRelevantArticle on a raw feed item. -/
def itemRelevanceView (i : FeedItem) : RelevanceView :=
  { title := i.title, contentSnippet := i.contentSnippet, content := i.content }

/-- The per-source pipe of fetchFromSource: map the feed items through
normalizeArticle, then filter the normalized Articles with
isRelevantArticle. -/
def fetchFromSourceArticles (items : List FeedItem)
    (sourceName sourceCategory sourceReliability : String) (now : Nat) : List Article :=
  (items.map (fun it => normalizeArticle it sourceName sourceCategory sourceReliability now)).filter
    (fun a => isRelevantArticle (articleRelevanceView a))

/-! ## The clusterer -/

/-- The stopword set of the clusterer. -/
def STOPWORDS : List String :=
  ["the", "a", "an", "is", "are", "was", "were", "be", "been", "being",
   "have", "has", "had", "do", "does", "did", "will", "would", "could",
   "should", "may", "might", "shall", "can", "need", "dare", "ought",
   "used", "to", "of", "in", "for", "on", "with", "at", "by", "from",
   "as", "into", "through", "during", "before", "after", "above", "below",
   "between", "out", "off", "over", "under", "again", "further", "then",
   "once", "here", "there", "when", "where", "why", "how", "all", "each",
   "every", "both", "few", "more", "most", "other", "some", "such", "no",
   "not", "only", "own", "same", "so", "than", "too", "very", "just",
   "because", "but", "and", "or", "if", "while", "that", "this", "what",
   "which", "who", "whom", "these", "those", "it", "its", "he", "she",
   "they", "them", "his", "her", "their", "we", "us", "south", "sudan",
   "sudanese", "says", "said", "new", "also", "about", "up"]

/-- Lowercase alphanumeric test on the tokenizer alphabet. -/
def isLowerAlnum (c : Char) : Bool :=
  (('a' ≤ c) && (c ≤ 'z')) || (('0' ≤ c) && (c ≤ '9'))

/-- Splitting on whitespace runs, the split of the tokenizer. -/
def splitWsGo : List Char → List Char → List String
  | acc, [] => if acc = [] then [] else [⟨acc.reverse⟩]
  | acc, c :: rest =>
    if isJsWhitespace c then
      if acc = [] then splitWsGo [] rest else ⟨acc.reverse⟩ :: splitWsGo [] rest
    else splitWsGo (c :: acc) rest

/-- Function tokenize of the clusterer: lowercase, delete characters outside
lowercase alphanumerics and whitespace, split on whitespace, keep tokens
longer than two characters that are not stopwords. -/
def tokenize (text : String) : List String :=
  (splitWsGo [] ((jsToLower text).data.filter
      (fun c => isLowerAlnum c || isJsWhitespace c))).filter
    (fun w => w.data.length > 2 && !STOPWORDS.contains w)

/-- One step of the frequency accumulation: bump the count of the token,
keeping object-key insertion order. -/
def bumpFreq : List (String × Nat) → String → List (String × Nat)
  | [], tok => [(tok, 1)]
  | (k, n) :: rest, tok =>
    if k == tok then (k, n + 1) :: rest else (k, n) :: bumpFreq rest tok

/-- Function getWordFrequency of the clusterer: per-token counts in
insertion order. -/
def getWordFrequency (tokens : List String) : List (String × Nat) :=
  tokens.foldl bumpFreq []

/-- Count of one word in a frequency table (0 when absent). -/
def freqGet (freq : List (String × Nat)) (w : String) : Nat :=
  ((freq.find? (fun p => p.1 == w)).map (fun p => p.2)).getD 0

/-- The union of the keys of both tables, in the order the JS Set spread
produces. -/
def allWordsOf (fa fb : List (String × Nat)) : List String :=
  dedupFirst (fa.map (fun p => p.1) ++ fb.map (fun p => p.1))

/-- The dot product of the two frequency vectors. -/
def dotFreq (fa fb : List (String × Nat)) : Nat :=
  ((allWordsOf fa fb).map (fun w => freqGet fa w * freqGet fb w)).sum

/-- The squared magnitude of a frequency vector. -/
def magFreq (fa fb : List (String × Nat)) (pick : Bool) : Nat :=
  ((allWordsOf fa fb).map (fun w =>
    let v := freqGet (if pick then fa else fb) w; v * v)).sum

/-- The threshold test cosine (fa, fb) at least t, computed exactly: for a
nonnegative dot product and positive magnitudes, dot over the root of the
magnitude product is at least t iff the squared comparison holds.  The
source computes the cosine in floating point; the comparison is embedded
exactly over the rationals. -/
def simAtLeast (fa fb : List (String × Nat)) (t : Rat) : Bool :=
  let dot := dotFreq fa fb
  let magA := magFreq fa fb true
  let magB := magFreq fa fb false
  if magA == 0 || magB == 0 then decide ((0 : Rat) ≥ t)
  else if decide (t ≤ 0) then true
  else decide ((dot * dot : Int) * (t.den : Int) * t.den ≥ t.num * t.num * (magA * magB : Nat))

/-- The greedy single pass of clusterArticles: the first unassigned article
opens a cluster and absorbs every later unassigned article similar to it;
the fuel bounds the number of passes. -/
def groupGreedy {β : Type} (pred : β → β → Bool) : Nat → List β → List (List β)
  | 0, _ => []
  | _ + 1, [] => []
  | fuel + 1, x :: rest =>
    (x :: rest.filter (fun y => pred x y)) :: groupGreedy pred fuel (rest.filter (fun y => !pred x y))

/-- The reliability ranking of primary selection. -/
def reliabilityRank (s : String) : Nat :=
  if s == "high" then 3 else if s == "medium" then 2
  else if s == "aggregator" then 1 else 0

/-- The comparator of the within-cluster sort: reliability rank descending,
then publication date descending (le means may-come-before). -/
def relDateLe (a b : Article) : Bool :=
  if reliabilityRank a.sourceReliability ≠ reliabilityRank b.sourceReliability then
    reliabilityRank b.sourceReliability < reliabilityRank a.sourceReliability
  else b.publishedAt ≤ a.publishedAt

/-- The fallback article of the head projection (a cluster group is never
empty, so it is never read). -/
def defaultArticle : Article :=
  { id := "", title := "", description := "", url := "", image := none,
    publishedAt := 0, source := "", sourceCategory := "", sourceReliability := "" }

/-- Derivation of one Cluster record from a grouped article list, the body
of the outer loop of clusterArticles after grouping. -/
def mkCluster (group : List Article) : Cluster :=
  let arts := group.insertionSort (fun a b => relDateLe a b = true)
  let primary := arts.headD defaultArticle
  { articles := arts
  , primaryArticle := primary
  , sourceCount := (dedupFirst (arts.map (fun a => a.source))).length
  , sources := dedupFirst (arts.map (fun a => a.source))
  , latestDate := ((arts.map (fun a => a.publishedAt)).insertionSort
      (fun x y => y ≤ x)).headD 0
  , category := primary.sourceCategory
  , image := match arts.find? (fun a => (a.image.getD "") ≠ "") with
             | some a => a.image
             | none => none }

/-- Function clusterArticles: group greedily by the similarity threshold on
the title-and-description token frequencies, derive each cluster record,
and sort the clusters by latest date descending. -/
def clusterArticles (articles : List Article) (similarityThreshold : Rat) : List Cluster :=
  let articleData := articles.map (fun a =>
    (a, getWordFrequency (tokenize (a.title ++ " " ++ a.description))))
  let groups := groupGreedy (fun p q => simAtLeast p.2 q.2 similarityThreshold)
    articleData.length articleData
  let clusters := (groups.map (fun g => g.map (fun p => p.1))).map mkCluster
  clusters.insertionSort (fun a b => b.latestDate ≤ a.latestDate)

/-! ## The weekly digest (digest.js)

Timestamps are epoch seconds with the server timezone taken as UTC; a day
is 86400 seconds.  One-decimal numbers (ROUND(x, 1), Math.round (10 x) / 10)
are carried as integer counts of tenths. -/

/-- Midnight of the day containing t. -/
def dayStart (t : Nat) : Nat := t / 86400 * 86400

/-- The baseline threshold MIN_BASELINE_EVENTS of the digest. -/
def MIN_BASELINE_EVENTS : Nat := 5

/-- Function getWeekBounds: the window end is the end of day of now minus
seven weeksAgo days (its text form keeps second 23:59:59 of that day), the
window start is midnight seven days earlier. -/
def getWeekBounds (now : Nat) (weeksAgo : Nat) : Nat × Nat :=
  let endDay := dayStart (now - weeksAgo * 604800)
  (endDay - 604800, endDay + 86399)

/-- Function pctChange: the rounded percentage change, with the zero and
zero-baseline special cases of the source. -/
def pctChange (current previous : Nat) : Int :=
  if previous == 0 && current == 0 then 0
  else if previous == 0 then 100
  else jsRoundDiv (((current : Int) - (previous : Int)) * 100) (previous : Int)

/-- Function formatChange: the percent string of a change, or the word new
under a weak baseline. -/
def formatChange (pct : Int) (baselineWeak : Bool) : String :=
  if baselineWeak then "new"
  else if pct > 0 then "+" ++ Int.repr pct ++ "%"
  else if pct < 0 then Int.repr pct ++ "%"
  else "unchanged"

/-- Function getEventsForPeriod of db.js: rows with extracted_at in the
half-open window, ordered by severity descending then published_at
descending (NULL severity sorts last, below the CHECK range). -/
def getEventsForPeriod (db : DB) (startDate endDate : Nat) : List EventRec :=
  (db.events.filter (fun ev =>
    decide (startDate ≤ ev.extracted_at) && decide (ev.extracted_at < endDate))).insertionSort
    (fun a b =>
      if (a.severity.getD 0) ≠ (b.severity.getD 0) then (b.severity.getD 0) ≤ (a.severity.getD 0)
      else b.published_at ≤ a.published_at)

/-- A row of the per-type aggregation: count and average severity in
tenths (none when every severity in the group is NULL, the SQL AVG of an
all-NULL column). -/
structure TypeCount where
  event_type : String
  count : Nat
  avg_severity_tenths : Option Int
deriving DecidableEq

/-- SQLite ROUND(x, 1) on the quotient a / b with b positive, in tenths:
half away from zero. -/
def sqlRound1Div (a : Int) (b : Int) : Int :=
  if 0 ≤ a then (2 * (10 * a) + b).fdiv (2 * b)
  else -((2 * (10 * (-a)) + b).fdiv (2 * b))

/-- Function getTypeCountsForPeriod of db.js: GROUP BY event_type with
count and rounded average severity, ordered by count descending (the
relative order of equal counts is unspecified in SQL; first-appearance
order is the deterministic choice here). -/
def getTypeCountsForPeriod (db : DB) (startDate endDate : Nat) : List TypeCount :=
  let rows := db.events.filter (fun ev =>
    decide (startDate ≤ ev.extracted_at) && decide (ev.extracted_at < endDate))
  let keys := dedupFirst (rows.map (fun ev => ev.event_type))
  (keys.map (fun k =>
    let grp := rows.filter (fun ev => ev.event_type == k)
    let sevs := grp.filterMap (fun ev => ev.severity)
    { event_type := k
    , count := grp.length
    , avg_severity_tenths :=
        if sevs.length == 0 then none
        else some (sqlRound1Div sevs.sum (sevs.length : Int)) })).insertionSort
    (fun a b => b.count ≤ a.count)

/-- A row of the region severity aggregation.  severityWeighted is the
severity sum (Math.round of ten times an integer over ten is the integer);
the average is in tenths. -/
structure RegionSeverity where
  region : String
  count : Nat
  severityWeighted : Int
  avgSeverityTenths : Int
deriving DecidableEq

/-- The (trimmed region, severity) occurrence pairs of a row list; a NULL
severity adds zero, as the JS addition with null. -/
def regionPairs (rows : List EventRec) : List (String × Int) :=
  rows.flatMap (fun ev =>
    ((ev.regions.map (fun r => jsTrim r)).filter (fun r => r ≠ "")).map
      (fun r => (r, ev.severity.getD 0)))

/-- Function getRegionSeverityForPeriod of db.js: per-region occurrence
count and severity sum over the window, sorted by weighted severity
descending. -/
def getRegionSeverityForPeriod (db : DB) (startDate endDate : Nat) : List RegionSeverity :=
  let rows := db.events.filter (fun ev =>
    decide (startDate ≤ ev.extracted_at) && decide (ev.extracted_at < endDate))
  let pairs := regionPairs rows
  let keys := dedupFirst (pairs.map (fun p => p.1))
  (keys.map (fun k =>
    let vs := (pairs.filter (fun p => p.1 == k)).map (fun p => p.2)
    { region := k
    , count := vs.length
    , severityWeighted := vs.sum
    , avgSeverityTenths := jsRoundDiv (10 * vs.sum) (vs.length : Int) })).insertionSort
    (fun a b => b.severityWeighted ≤ a.severityWeighted)

/-- An actor count row. -/
structure ActorCount where
  actor : String
  count : Nat
deriving DecidableEq

/-- The trimmed nonempty actor occurrences of a row list; the stored
normalized list is preferred, the raw list read when it is NULL. -/
def actorOccurrences (rows : List EventRec) : List String :=
  rows.flatMap (fun ev =>
    ((ev.actors_normalized.getD ev.actors).map (fun a => jsTrim a)).filter (fun a => a ≠ ""))

/-- Function getActorCountsForPeriod of db.js: per-actor counts over the
window, sorted by count descending. -/
def getActorCountsForPeriod (db : DB) (startDate endDate : Nat) : List ActorCount :=
  let occ := actorOccurrences (db.events.filter (fun ev =>
    decide (startDate ≤ ev.extracted_at) && decide (ev.extracted_at < endDate)))
  let keys := dedupFirst occ
  (keys.map (fun k =>
    { actor := k, count := (occ.filter (fun a => a == k)).length })).insertionSort
    (fun a b => b.count ≤ a.count)

/-- Function renormalizeActorList of digest.js: re-apply the canonical
alias table and merge the counts, then sort by count descending. -/
def renormalizeActorList (actorList : List ActorCount) : List ActorCount :=
  let canon := actorList.map (fun ac => (normalizeActor ac.actor, ac.count))
  let keys := dedupFirst (canon.map (fun p => p.1))
  (keys.map (fun k =>
    { actor := k, count := ((canon.filter (fun p => p.1 == k)).map (fun p => p.2)).sum })).insertionSort
    (fun a b => b.count ≤ a.count)

/-- A row of the topline type shifts. -/
structure TypeShift where
  type : String
  thisWeek : Nat
  lastWeek : Nat
  change : Int
  avg_severity_tenths : Option Int
deriving DecidableEq

/-- The topline of the digest. -/
structure Topline where
  totalThisWeek : Nat
  totalLastWeek : Nat
  totalChange : Int
  baselineWeak : Bool
  typeShifts : List TypeShift
deriving DecidableEq

/-- A hot-region row of the digest. -/
structure HotRegion where
  region : String
  count : Nat
  severityWeighted : Int
  avgSeverityTenths : Int
  prevCount : Nat
  change : Int
deriving DecidableEq

/-- An actor-spike row of the digest. -/
structure ActorSpike where
  actor : String
  thisWeek : Nat
  lastWeek : Nat
  change : Int
deriving DecidableEq

/-- The structured digest, restricted to the sections the verified claims
speak about (topline, hot regions, actor spikes).  The high-severity
bundling section and the header metadata carry no percent formatting and
are not embedded. -/
structure Digest where
  topline : Topline
  hotRegions : List HotRegion
  actorSpikes : List ActorSpike
deriving DecidableEq

/-- Function generateDigest of digest.js (topline, hot regions and actor
spikes): the two week windows, the per-window aggregates, the weak-baseline
flag, and the week-over-week change rows. -/
def generateDigest (db : DB) (now : Nat) : Digest :=
  let thisWeek := getWeekBounds now 0
  let lastWeek := getWeekBounds now 1
  let twEvents := getEventsForPeriod db thisWeek.1 thisWeek.2
  let lwEvents := getEventsForPeriod db lastWeek.1 lastWeek.2
  let baselineWeak := decide (lwEvents.length < MIN_BASELINE_EVENTS)
  let twTypes := getTypeCountsForPeriod db thisWeek.1 thisWeek.2
  let lwTypes := getTypeCountsForPeriod db lastWeek.1 lastWeek.2
  let twRegions := getRegionSeverityForPeriod db thisWeek.1 thisWeek.2
  let lwRegions := getRegionSeverityForPeriod db lastWeek.1 lastWeek.2
  let twActors := renormalizeActorList (getActorCountsForPeriod db thisWeek.1 thisWeek.2)
  let lwActors := renormalizeActorList (getActorCountsForPeriod db lastWeek.1 lastWeek.2)
  let typeShifts :=
    twTypes.map (fun t =>
      let prev := lwTypes.find? (fun lt => lt.event_type == t.event_type)
      { type := t.event_type
      , thisWeek := t.count
      , lastWeek := (prev.map (fun p => p.count)).getD 0
      , change := pctChange t.count ((prev.map (fun p => p.count)).getD 0)
      , avg_severity_tenths := t.avg_severity_tenths }) ++
    (lwTypes.filter (fun lt =>
      !(twTypes.any (fun t => t.event_type == lt.event_type)))).map (fun lt =>
      { type := lt.event_type
      , thisWeek := 0
      , lastWeek := lt.count
      , change := -100
      , avg_severity_tenths := some 0 })
  { topline :=
    { totalThisWeek := twEvents.length
    , totalLastWeek := lwEvents.length
    , totalChange := pctChange twEvents.length lwEvents.length
    , baselineWeak := baselineWeak
    , typeShifts := typeShifts }
  , hotRegions := (twRegions.take 10).map (fun r =>
      let prev := lwRegions.find? (fun p => p.region == r.region)
      { region := r.region
      , count := r.count
      , severityWeighted := r.severityWeighted
      , avgSeverityTenths := r.avgSeverityTenths
      , prevCount := (prev.map (fun p => p.count)).getD 0
      , change := pctChange r.count ((prev.map (fun p => p.count)).getD 0) })
  , actorSpikes := ((twActors.take 15).map (fun a =>
      let prev := ((lwActors.find? (fun p => p.actor == a.actor)).map
        (fun p => p.count)).getD 0
      { actor := a.actor
      , thisWeek := a.count
      , lastWeek := prev
      , change := pctChange a.count prev })).insertionSort
      (fun a b => b.change ≤ a.change) }

/-! ## Plain-text rendering of the digest sections (renderDigestText) -/

/-- Number rendering of an integer count of tenths, as JS prints the
one-decimal values: integral values print without the point. -/
def showTenths (k : Int) : String :=
  if k % 10 == 0 then Int.repr (k / 10)
  else (if k < 0 then "-" else "") ++
    Nat.repr (k.natAbs / 10) ++ "." ++ Nat.repr (k.natAbs % 10)

/-- Template interpolation of an average severity that can be SQL NULL. -/
def showOptTenths : Option Int → String
  | none => "null"
  | some k => showTenths k

/-- One topline type row of the plain-text rendering. -/
def toplineRowText (bw : Bool) (t : TypeShift) : String :=
  if bw then
    "  " ++ t.type ++ ": " ++ Nat.repr t.thisWeek ++ " (avg sev " ++
      showOptTenths t.avg_severity_tenths ++ ")\n"
  else
    "  " ++ t.type ++ ": " ++ Nat.repr t.thisWeek ++ " (" ++
      formatChange t.change bw ++ ")\n"

/-- The TOPLINE section of the plain-text rendering. -/
def renderToplineText (d : Digest) : String :=
  let bw := d.topline.baselineWeak
  "TOPLINE\n" ++
  (if bw then
    "  (Baseline week — prior data insufficient for trends)\n" ++
    "  Total: " ++ Nat.repr d.topline.totalThisWeek ++ " events tracked\n"
  else
    "  Total: " ++ Nat.repr d.topline.totalThisWeek ++ " events (" ++
      formatChange d.topline.totalChange bw ++ " WoW)\n") ++
  d.topline.typeShifts.foldl (fun acc t => acc ++ toplineRowText bw t) ""

/-- One hot-region row of the plain-text rendering. -/
def hotRegionRowText (bw : Bool) (r : HotRegion) : String :=
  if bw then
    "  " ++ r.region ++ ": " ++ Nat.repr r.count ++ " events, avg severity " ++
      showTenths r.avgSeverityTenths ++ "\n"
  else
    "  " ++ r.region ++ ": " ++ Nat.repr r.count ++ " events, avg severity " ++
      showTenths r.avgSeverityTenths ++ " (" ++ formatChange r.change bw ++ " WoW)\n"

/-- The HOT REGIONS section of the plain-text rendering (first eight rows). -/
def renderHotRegionsText (d : Digest) : String :=
  let bw := d.topline.baselineWeak
  "HOT REGIONS\n" ++
  (d.hotRegions.take 8).foldl (fun acc r => acc ++ hotRegionRowText bw r) ""

/-- One actor row of the plain-text rendering. -/
def actorRowText (bw : Bool) (a : ActorSpike) : String :=
  if bw then
    "  " ++ a.actor ++ ": " ++ Nat.repr a.thisWeek ++ " mentions\n"
  else
    "  " ++ a.actor ++ ": " ++ Nat.repr a.thisWeek ++ " mentions (" ++
      formatChange a.change bw ++ " from " ++ Nat.repr a.lastWeek ++ ")\n"

/-- The ACTOR ACTIVITY section of the plain-text rendering: the spikes with
nonzero change, first eight. -/
def renderActorActivityText (d : Digest) : String :=
  let bw := d.topline.baselineWeak
  "\nACTOR ACTIVITY\n" ++
  ((d.actorSpikes.filter (fun a => !(a.change == 0))).take 8).foldl
    (fun acc a => acc ++ actorRowText bw a) ""

/-- Occurrence of the percent character in a string, the shape of every
percent-change rendering. -/
def hasPct (s : String) : Bool := s.data.any (fun c => c == '%')

/-- Percent-character freedom of the text columns of every stored event:
the event type, the region names, and both actor lists carry no percent
character.  The digest renders these strings verbatim, so the no-percent
statement about a weak-baseline digest is relative to this data property. -/
def dbNoPct (db : DB) : Bool :=
  db.events.all (fun ev =>
    !hasPct ev.event_type &&
    ev.regions.all (fun r => !hasPct r) &&
    ev.actors.all (fun a => !hasPct a) &&
    (ev.actors_normalized.getD []).all (fun a => !hasPct a))

/-! ## Concrete fixtures for witnesses and counterexamples -/

/-- The event row the acceptance witness run persists. -/
def evValid : EventRec :=
  { cluster_hash := "28b379380cdba402de5994bced4d3f18"
  , summary := "Clashes reported in Upper Nile"
  , country := "South Sudan"
  , regions := ["Upper Nile"]
  , event_type := "security"
  , event_subtype := some "clash"
  , severity := some 4
  , scope := "state"
  , source_tier := "tier2"
  , verification_status := "reported"
  , confidence := ⟨9, 10, by decide, by decide⟩
  , rationale := some "Multiple sources report armed clashes"
  , actors := ["SPLM-IO", "unmiss"]
  , actors_normalized := some ["SPLM-IO", "UNMISS"]
  , model_version := some MODEL_VERSION
  , prompt_version := some PROMPT_VERSION
  , article_urls := ["https://example.org/a", "https://example.org/b"]
  , article_count := 2
  , sources := ["Radio Tamazuj", "Eye Radio"]
  , primary_url := "https://example.org/b"
  , primary_title := "Upper Nile clash reported"
  , published_at := 2000
  , extracted_at := 0 }

/-- The boundary feed item of the spec: a title with no strong keyword and
a body carrying two supporting South Sudan keywords. -/
def itemKiir : FeedItem :=
  { title := some "Kiir addresses nation in Juba"
  , contentSnippet := some "Crowds gathered in juba as unmiss monitors the ceremony"
  , link := some "https://example.org/kiir" }

/-- An event row timestamped in the first second of the day seven days
before the evaluation instant. -/
def eventOverlapDay : EventRec :=
  { cluster_hash := "h1", summary := "s", country := "Sudan", regions := [],
    event_type := "security", event_subtype := none, severity := some 3,
    scope := "local", source_tier := "tier2", verification_status := "reported",
    confidence := ratHalf, rationale := none, actors := [],
    actors_normalized := some [], model_version := none, prompt_version := none,
    article_urls := [], article_count := 1, sources := [], primary_url := "",
    primary_title := "", published_at := 600000, extracted_at := 604800 }

/-- A store holding only that row. -/
def dbOverlap : DB := { events := [eventOverlapDay], quarantine := [] }


/-- The empty store. -/
def emptyDB : DB := { events := [], quarantine := [] }

/-- Sample article: the first spec boundary title. -/
def artClashA : Article :=
  { id := "a1", title := "Clash in Upper Nile", description := "desc a",
    url := "https://example.org/a", image := none, publishedAt := 1000,
    source := "Radio Tamazuj", sourceCategory := "local",
    sourceReliability := "medium" }

/-- Sample article: the second spec boundary title. -/
def artClashB : Article :=
  { id := "b1", title := "Upper Nile clash reported", description := "desc b",
    url := "https://example.org/b", image := none, publishedAt := 2000,
    source := "Eye Radio", sourceCategory := "local",
    sourceReliability := "medium" }

/-- The two sample articles in one order. -/
def clusterAB : Cluster :=
  { articles := [artClashA, artClashB], primaryArticle := artClashB,
    sourceCount := 2, sources := ["Radio Tamazuj", "Eye Radio"],
    latestDate := 2000, category := "local", image := none }

/-- The two sample articles in the other order. -/
def clusterBA : Cluster :=
  { articles := [artClashB, artClashA], primaryArticle := artClashB,
    sourceCount := 2, sources := ["Eye Radio", "Radio Tamazuj"],
    latestDate := 2000, category := "local", image := none }

/-- The hard-reject response of the spec boundary scenario: country null,
eventType security, severity 4. -/
def dataMissingCountry : LLMData :=
  { country := some JsonV.null
  , eventType := some (JsonV.str "security")
  , severity := some (JsonV.num 4) }

/-- A fully valid response used by the acceptance witness. -/
def dataValid : LLMData :=
  { summary := some (JsonV.str "Clashes reported in Upper Nile")
  , country := some (JsonV.str "South Sudan")
  , regions := some (JsonV.arr [JsonV.str "Upper Nile"])
  , eventType := some (JsonV.str "security")
  , eventSubtype := some (JsonV.str "clash")
  , severity := some (JsonV.num 4)
  , scope := some (JsonV.str "state")
  , verificationStatus := some (JsonV.str "reported")
  , confidence := some (JsonV.num ⟨9, 10, by decide, by decide⟩)
  , actors := some (JsonV.arr [JsonV.str "SPLM-IO", JsonV.str "unmiss"])
  , rationale := some (JsonV.str "Multiple sources report armed clashes") }

/-- A response whose severity is the non-numeric string abc: every hard
check passes it (the loose null test is false, and both range comparisons
coerce the string to NaN, on which every comparison is false). -/
def dataStrSev : LLMData :=
  { summary := some (JsonV.str "s")
  , country := some (JsonV.str "South Sudan")
  , regions := some (JsonV.arr [JsonV.str "Juba"])
  , eventType := some (JsonV.str "security")
  , severity := some (JsonV.str "abc")
  , confidence := some (JsonV.num ⟨4, 5, by decide, by decide⟩) }

/-- The event row persisted from that response: its severity is NULL (the
NaN of Math.round of the string is stored as NULL by SQLite, and the CHECK
range constraint passes on NULL). -/
def evStrSev : EventRec :=
  { cluster_hash := "28b379380cdba402de5994bced4d3f18"
  , summary := "s"
  , country := "South Sudan"
  , regions := ["Juba"]
  , event_type := "security"
  , event_subtype := none
  , severity := none
  , scope := "local"
  , source_tier := "tier2"
  , verification_status := "reported"
  , confidence := ⟨4, 5, by decide, by decide⟩
  , rationale := none
  , actors := []
  , actors_normalized := some []
  , model_version := some MODEL_VERSION
  , prompt_version := some PROMPT_VERSION
  , article_urls := ["https://example.org/a", "https://example.org/b"]
  , article_count := 2
  , sources := ["Radio Tamazuj", "Eye Radio"]
  , primary_url := "https://example.org/b"
  , primary_title := "Upper Nile clash reported"
  , published_at := 2000
  , extracted_at := 0 }

/-! ## Helper lemmas -/

theorem stringExt {a b : String} (h : a.data = b.data) : a = b := congrArg String.mk h

theorem dropWhile_dropWhile_same {α : Type} (p : α → Bool) (l : List α) :
    (l.dropWhile p).dropWhile p = l.dropWhile p := by
  induction l with
  | nil => rfl
  | cons a t ih =>
    by_cases h : p a
    · simp [List.dropWhile_cons, h, ih]
    · simp [List.dropWhile_cons, h]

theorem dropWhile_of_prefix_noLead {α : Type} (p : α → Bool) {t m : List α}
    (hpre : t <+: m) (hm : m.dropWhile p = m) : t.dropWhile p = t := by
  cases t with
  | nil => rfl
  | cons a t2 =>
    obtain ⟨s, hs⟩ := hpre
    have hpa : p a = false := by
      by_contra hcon
      have hpa2 : p a = true := by revert hcon; cases p a <;> simp
      rw [← hs] at hm
      simp [List.dropWhile_cons, hpa2] at hm
      have hlen := congrArg List.length hm
      have hle := (List.dropWhile_sublist (l := t2 ++ s) p).length_le
      simp at hlen hle
      omega
    simp [List.dropWhile_cons, hpa]

theorem trimCharList_isPrefixOf_dropWhile (p : Char → Bool) (l : List Char) :
    trimCharList p l <+: l.dropWhile p := by
  unfold trimCharList
  have hsuf : (l.dropWhile p).reverse.dropWhile p <:+ (l.dropWhile p).reverse :=
    List.dropWhile_suffix p
  have := hsuf.reverse
  simpa using this

theorem trimCharList_idem (p : Char → Bool) (l : List Char) :
    trimCharList p (trimCharList p l) = trimCharList p l := by
  have h1 : (trimCharList p l).dropWhile p = trimCharList p l :=
    dropWhile_of_prefix_noLead p (trimCharList_isPrefixOf_dropWhile p l) (dropWhile_dropWhile_same p l)
  show ((((trimCharList p l).dropWhile p).reverse).dropWhile p).reverse = trimCharList p l
  rw [h1]
  have h2 : (trimCharList p l).reverse = (l.dropWhile p).reverse.dropWhile p := by
    unfold trimCharList
    rw [List.reverse_reverse]
  rw [h2, dropWhile_dropWhile_same]
  unfold trimCharList
  rfl

theorem ws_asciiLowerChar (c : Char) :
    isJsWhitespace (asciiLowerChar c) = isJsWhitespace c := by
  unfold asciiLowerChar
  split <;> simp_all [isJsWhitespace]

theorem trimCharList_map_lower (l : List Char) :
    trimCharList isJsWhitespace (l.map asciiLowerChar) =
      (trimCharList isJsWhitespace l).map asciiLowerChar := by
  have hfun : (isJsWhitespace ∘ asciiLowerChar) = isJsWhitespace :=
    funext ws_asciiLowerChar
  unfold trimCharList
  rw [List.dropWhile_map, hfun, ← List.map_reverse, List.dropWhile_map, hfun,
    ← List.map_reverse]

theorem jsTrim_idem (s : String) : jsTrim (jsTrim s) = jsTrim s := by
  apply stringExt
  show trimCharList isJsWhitespace (trimCharList isJsWhitespace s.data) = _
  rw [trimCharList_idem]
  rfl

theorem jsTrim_lower_jsTrim (x : String) :
    jsTrim (jsToLower (jsTrim x)) = jsTrim (jsToLower x) := by
  apply stringExt
  show trimCharList isJsWhitespace ((trimCharList isJsWhitespace x.data).map asciiLowerChar) = _
  rw [← trimCharList_map_lower, trimCharList_idem]
  rfl

theorem aliasValues_fixed :
    ∀ pr ∈ ACTOR_ALIASES, normalizeActor pr.2 = pr.2 := by decide

/-! ## Claims -/

/-- Idempotence of the own-key restriction of actor normalization: with
the alias table read as a map of its own keys only, normalizing twice
equals normalizing once, for every string.  This is the property an
own-property lookup (a null-prototype object, a Map, or a hasOwnProperty
guard) would give the source; the source's bracket access does not have
it, as the evaluation below shows. -/
theorem normalizeActor_ownkey_idempotent (x : String) :
    normalizeActor (normalizeActor x) = normalizeActor x := by
  unfold normalizeActor
  cases h : aliasLookup (jsTrim (jsToLower x)) with
  | some v =>
    show normalizeActor v = v
    unfold aliasLookup at h
    cases hf : ACTOR_ALIASES.find? (fun p => p.1 == jsTrim (jsToLower x)) with
    | none => rw [hf] at h; simp at h
    | some pr =>
      rw [hf] at h
      simp at h
      subst h
      exact aliasValues_fixed pr (List.mem_of_find?_eq_some hf)
  | none =>
    show normalizeActor (jsTrim x) = jsTrim x
    unfold normalizeActor
    rw [jsTrim_lower_jsTrim, h, jsTrim_idem]

/-- Claim C9 (code evaluation): actor normalization is not idempotent in
the program.  The alias table is a plain object literal, so the bracket
access on the lowercased trimmed key resolves inherited Object-prototype
keys: for the input string constructor the lookup yields the inherited
constructor function, a truthy non-string that the or-else returns, and
the second application of normalizeActor throws a TypeError calling
toLowerCase on it — so normalize (normalize x) = normalize x fails there,
while an ordinary string such as UNMISS is a fixed point of one and of
two applications. -/
theorem C9_prototype_chain_eval :
    normalizeActorJS "constructor" = JsActorValue.inherited "constructor" ∧
    normalizeActorJSStep (normalizeActorJS "constructor") = none ∧
    (∀ s : String, normalizeActorJS "constructor" ≠ JsActorValue.str s) ∧
    normalizeActorJS "UNMISS" = JsActorValue.str "UNMISS" ∧
    normalizeActorJSStep (normalizeActorJS "UNMISS") =
      some (JsActorValue.str "UNMISS") :=
  ⟨by decide, by decide,
   fun s h => by
     rw [show normalizeActorJS "constructor" = JsActorValue.inherited "constructor"
       from by decide] at h
     exact JsActorValue.noConfusion h,
   by decide, by decide⟩

theorem jsRoundDiv_eq_floor (a b : Int) (hb : 0 < b) :
    jsRoundDiv a b = ⌊(a : Rat) / (b : Rat) + 1/2⌋ := by
  unfold jsRoundDiv
  rw [Int.fdiv_eq_ediv _ (by omega)]
  have key := Rat.floor_intCast_div_natCast (2 * a + b) (2 * b).toNat
  have hcast : (((2 * b).toNat : ℕ) : ℚ) = ((2 * b : ℤ) : ℚ) := by
    exact_mod_cast Int.toNat_of_nonneg (by omega : (0 : Int) ≤ 2 * b)
  rw [hcast, Int.toNat_of_nonneg (by omega : (0 : Int) ≤ 2 * b)] at key
  rw [← key]
  congr 1
  have hbQ : ((b : Int) : ℚ) ≠ 0 := by
    exact_mod_cast (by omega : (b : Int) ≠ 0)
  push_cast
  field_simp
  ring

/-- Claim C8: the percent-change function computes
round (((current − previous) / previous) × 100) and satisfies, for every
N > 0: pctChange 0 0 = 0, pctChange N 0 = 100, and pctChange 0 N = −100. -/
theorem C8_pctChange_spec (N : Nat) (hN : 0 < N) :
    pctChange 0 0 = 0 ∧ pctChange N 0 = 100 ∧ pctChange 0 N = -100 ∧
    ∀ current : Nat,
      pctChange current N =
        ⌊(((current : Rat) - (N : Rat)) / (N : Rat)) * 100 + 1/2⌋ := by
  have hNz : (N == 0) = false := by simp; omega
  refine ⟨rfl, ?_, ?_, ?_⟩
  · show pctChange N 0 = 100
    simp [pctChange, hNz]
  · show pctChange 0 N = -100
    have h1 : pctChange 0 N = (2 * (((0 : Int) - N) * 100) + N).fdiv (2 * N) := by
      simp [pctChange, hNz, jsRoundDiv]
    rw [h1, Int.fdiv_eq_ediv _ (by omega)]
    have h2 : 2 * (((0 : Int) - N) * 100) + N = N + 2 * N * (-100) := by ring
    rw [h2, Int.add_mul_ediv_left _ _ (by omega : (2 : Int) * N ≠ 0),
      Int.ediv_eq_zero_of_lt (by omega) (by omega)]
    ring
  · intro current
    have h1 : pctChange current N = jsRoundDiv (((current : Int) - N) * 100) N := by
      simp [pctChange, hNz]
    rw [h1, jsRoundDiv_eq_floor _ _ (by omega)]
    congr 1
    have hNQ : ((N : Nat) : ℚ) ≠ 0 := by
      exact_mod_cast (by omega : N ≠ 0)
    push_cast
    field_simp

theorem C8_pctChange_spec_witness :
    0 < 3 ∧
    (pctChange 0 0 = 0 ∧ pctChange 3 0 = 100 ∧ pctChange 0 3 = -100 ∧
     ∀ current : Nat,
       pctChange current 3 =
         ⌊(((current : Rat) - (3 : Rat)) / (3 : Rat)) * 100 + 1/2⌋) :=
  ⟨by decide, C8_pctChange_spec 3 (by decide)⟩

theorem char_toNat_inj {a b : Char} (h : a.toNat = b.toNat) : a = b := by
  rw [← Char.ofNat_toNat a, ← Char.ofNat_toNat b, h]

theorem natLex_total (a b : List Nat) : (natLex a b || natLex b a) = true := by
  induction a generalizing b with
  | nil => simp [natLex]
  | cons x xs ih =>
    cases b with
    | nil => simp [natLex]
    | cons y ys =>
      simp only [natLex]
      rcases Nat.lt_trichotomy x y with h | h | h
      · simp [h]
      · subst h
        simpa [lt_irrefl] using ih ys
      · simp [h, Nat.lt_asymm h]

theorem natLex_trans (a b c : List Nat) (h1 : natLex a b = true)
    (h2 : natLex b c = true) : natLex a c = true := by
  induction a generalizing b c with
  | nil => simp [natLex]
  | cons x xs ih =>
    cases b with
    | nil => simp [natLex] at h1
    | cons y ys =>
      cases c with
      | nil => simp [natLex] at h2
      | cons z zs =>
        simp only [natLex] at h1 h2 ⊢
        rcases Nat.lt_trichotomy x y with hxy | hxy | hxy
        · rcases Nat.lt_trichotomy y z with hyz | hyz | hyz
          · simp [Nat.lt_trans hxy hyz]
          · subst hyz; simp [hxy]
          · rw [if_neg (by omega), if_pos hyz] at h2
            simp at h2
        · subst hxy
          rcases Nat.lt_trichotomy x z with hxz | hxz | hxz
          · simp [hxz]
          · subst hxz
            rw [if_neg (lt_irrefl x), if_neg (lt_irrefl x)] at h1 h2 ⊢
            exact ih ys zs h1 h2
          · rw [if_neg (by omega), if_pos hxz] at h2
            simp at h2
        · rw [if_neg (by omega), if_pos hxy] at h1
          simp at h1

theorem natLex_antisymm (a b : List Nat) (h1 : natLex a b = true)
    (h2 : natLex b a = true) : a = b := by
  induction a generalizing b with
  | nil =>
    cases b with
    | nil => rfl
    | cons y ys => simp [natLex] at h2
  | cons x xs ih =>
    cases b with
    | nil => simp [natLex] at h1
    | cons y ys =>
      simp only [natLex] at h1 h2
      rcases Nat.lt_trichotomy x y with hxy | hxy | hxy
      · rw [if_neg (by omega), if_pos hxy] at h2
        simp at h2
      · subst hxy
        rw [if_neg (lt_irrefl x), if_neg (lt_irrefl x)] at h1 h2
        rw [ih ys h1 h2]
      · rw [if_neg (by omega), if_pos hxy] at h1
        simp at h1

theorem jsStrLe_total (a b : String) : (jsStrLe a b || jsStrLe b a) = true :=
  natLex_total _ _

theorem jsStrLe_trans (a b c : String) (h1 : jsStrLe a b = true)
    (h2 : jsStrLe b c = true) : jsStrLe a c = true :=
  natLex_trans _ _ _ h1 h2

theorem jsStrLe_antisymm (a b : String) (h1 : jsStrLe a b = true)
    (h2 : jsStrLe b a = true) : a = b := by
  have hmap := natLex_antisymm _ _ h1 h2
  have hinj : Function.Injective Char.toNat := fun _ _ h => char_toNat_inj h
  exact stringExt (List.map_injective_iff.mpr hinj hmap)

theorem jsSortStrings_eq_of_perm {l1 l2 : List String} (h : l1.Perm l2) :
    jsSortStrings l1 = jsSortStrings l2 := by
  haveI : IsTotal String (fun a b => jsStrLe a b = true) :=
    ⟨fun a b => by
      have h1 := jsStrLe_total a b
      rw [Bool.or_eq_true] at h1
      exact h1⟩
  haveI : IsTrans String (fun a b => jsStrLe a b = true) :=
    ⟨fun a b c => jsStrLe_trans a b c⟩
  haveI : IsAntisymm String (fun a b => jsStrLe a b = true) :=
    ⟨fun a b => jsStrLe_antisymm a b⟩
  exact List.eq_of_perm_of_sorted
    (((List.perm_insertionSort _ l1).trans h).trans (List.perm_insertionSort _ l2).symm)
    (List.sorted_insertionSort _ l1) (List.sorted_insertionSort _ l2)

/-- Claim C2: for every cluster and every permutation of its articles list,
clusterHash returns the same value — the hash is the MD5 of the pipe-joined,
sorted, lowercased, trimmed titles of the cluster articles, and the sort
makes it invariant under reordering of the articles. -/
theorem C2_clusterHash_perm_invariant (c1 c2 : Cluster)
    (h : c1.articles.Perm c2.articles) : clusterHash c1 = clusterHash c2 := by
  unfold clusterHash
  rw [jsSortStrings_eq_of_perm (h.map (fun a => jsTrim (jsToLower a.title)))]

theorem C2_clusterHash_perm_invariant_witness :
    clusterAB.articles.Perm clusterBA.articles ∧ clusterHash clusterAB = clusterHash clusterBA :=
  ⟨by decide, C2_clusterHash_perm_invariant clusterAB clusterBA (by decide)⟩

/-- Claim C1: for every hash h, exists h is true iff h is present as a
cluster hash in the events table or in the quarantine table; and in an
extraction cycle the pending set contains exactly the clusters whose
cluster hash satisfies not-exists, so only those reach the model call. -/
theorem C1_dedup_gate (db : DB) (hash : String) (clusters : List Cluster) (c : Cluster) :
    (eventExists db hash = true ↔
      ((∃ e ∈ db.events, e.cluster_hash = hash) ∨
       (∃ q ∈ db.quarantine, q.cluster_hash = hash))) ∧
    (c ∈ pendingClusters db clusters ↔
      (c ∈ clusters ∧ eventExists db (clusterHash c) = false)) := by
  constructor
  · have hform : eventExists db hash =
        (db.events.any (fun e => e.cluster_hash == hash) ||
         db.quarantine.any (fun q => q.cluster_hash == hash)) := by
      unfold eventExists
      by_cases h : db.events.any (fun e => e.cluster_hash == hash) = true <;> simp [h]
    rw [hform]
    simp [List.any_eq_true]
  · simp [pendingClusters, List.mem_filter]

theorem if_list_nil_neg {c : Prop} [Decidable c] {msg : String}
    (h : (if c then [msg] else []) = []) : ¬ c := by
  intro hc
  rw [if_pos hc] at h
  simp at h

theorem jsHasStr_mem {set : List String} {x : Option JsonV}
    (h : jsHasStr set x = true) : jstr x ∈ set := by
  cases x with
  | none => simp [jsHasStr] at h
  | some v =>
    cases v with
    | str s => simpa [jsHasStr, jstr] using h
    | null => simp [jsHasStr] at h
    | num q => simp [jsHasStr] at h
    | bool b => simp [jsHasStr] at h
    | arr xs => simp [jsHasStr] at h

theorem clampConfidence_bounds (x : Option JsonV) :
    0 ≤ clampConfidence x ∧ clampConfidence x ≤ 1 := by
  have hhalf0 : (0 : Rat) ≤ ratHalf := by decide
  have hhalf1 : ratHalf ≤ (1 : Rat) := by decide
  simp only [clampConfidence]
  cases hj : jsToNumber (if jsTruthy x = false then some (JsonV.num ratHalf) else x) with
  | none => exact ⟨hhalf0, hhalf1⟩
  | some q =>
    dsimp only
    by_cases hz : (min 1 (max 0 q) == 0) = true
    · rw [if_pos hz]
      exact ⟨hhalf0, hhalf1⟩
    · rw [if_neg hz]
      constructor
      · exact le_inf (by norm_num) le_sup_left
      · exact inf_le_left

/-- Claim C3: for every model output whose parsed JSON has any hard
validation error, the extractor inserts one quarantine record whose error
reasons are exactly those hard errors (with the raw output preserved) and
inserts nothing into the events table. -/
theorem C3_hard_errors_quarantine (db : DB) (cluster : Cluster) (data : LLMData)
    (raw : String) (now : Nat)
    (hex : eventExists db (clusterHash cluster) = false)
    (hhard : (validateExtraction data).1 ≠ []) :
    (extractEventData db cluster data raw now).2 = none ∧
    ((extractEventData db cluster data raw now).1).events = db.events ∧
    ∃ qr : QuarantineRec,
      ((extractEventData db cluster data raw now).1).quarantine = db.quarantine ++ [qr] ∧
      qr.error_reasons = (validateExtraction data).1 ∧
      qr.cluster_hash = clusterHash cluster ∧
      qr.raw_output = some raw := by
  have hrun : extractEventData db cluster data raw now =
      (insertQuarantine db
        { cluster_hash := clusterHash cluster, raw_output := some raw,
          error_reasons := (validateExtraction data).1,
          primary_title := some cluster.primaryArticle.title,
          primary_url := some cluster.primaryArticle.url,
          sources := dedupFirst (cluster.articles.map (fun a => a.source)),
          article_urls := (cluster.articles.map (fun a => a.url)).filter (fun u => u ≠ ""),
          model_version := some MODEL_VERSION, prompt_version := some PROMPT_VERSION,
          quarantined_at := now }, none) := by
    unfold extractEventData
    simp only [hex, Bool.false_eq_true, if_false]
    rw [if_pos hhard]
  rw [hrun]
  exact ⟨rfl, rfl, _, rfl, rfl, rfl, rfl⟩

theorem C3_hard_errors_quarantine_witness :
    (validateExtraction dataMissingCountry).1 = ["missing country"] ∧
    eventExists emptyDB (clusterHash clusterAB) = false ∧
    ((extractEventData emptyDB clusterAB dataMissingCountry "raw-output" 0).2 = none ∧
     ((extractEventData emptyDB clusterAB dataMissingCountry "raw-output" 0).1).events =
       emptyDB.events ∧
     ∃ qr : QuarantineRec,
       ((extractEventData emptyDB clusterAB dataMissingCountry "raw-output" 0).1).quarantine =
         emptyDB.quarantine ++ [qr] ∧
       qr.error_reasons = (validateExtraction dataMissingCountry).1 ∧
       qr.cluster_hash = clusterHash clusterAB ∧
       qr.raw_output = some "raw-output") :=
  ⟨by decide, rfl,
   C3_hard_errors_quarantine emptyDB clusterAB dataMissingCountry "raw-output" 0 rfl
     (by decide)⟩

/-- Claim C4 (amended): every event the extractor persists from a response
whose severity field is a JSON number has severity the clamped rounded
model value, an integer within one and five, confidence within the unit
interval, eventType in the six-value enumeration, scope in its enumeration
with default local, and verificationStatus in its enumeration with default
reported.  The number proviso is necessary: the counterexample below shows
a non-numeric string severity passing validation and persisting as NULL, so
the unrestricted claim is false of the program. -/
theorem C4_persisted_event_invariants (db : DB) (cluster : Cluster) (data : LLMData)
    (raw : String) (now : Nat) (q : Rat) (ev : EventRec)
    (hsev : data.severity = some (JsonV.num q))
    (hrun : (extractEventData db cluster data raw now).2 = some ev) :
    ev.severity = some (min 5 (max 1 (jsRound q))) ∧
    (∃ k : Int, ev.severity = some k ∧ 1 ≤ k ∧ k ≤ 5) ∧
    0 ≤ ev.confidence ∧ ev.confidence ≤ 1 ∧
    ev.event_type ∈ VALID_EVENT_TYPES ∧
    ev.scope ∈ VALID_SCOPES ∧
    (jsHasStr VALID_SCOPES data.scope = false → ev.scope = "local") ∧
    ev.verification_status ∈ VALID_VERIFICATION ∧
    (jsHasStr VALID_VERIFICATION data.verificationStatus = false →
      ev.verification_status = "reported") := by
  simp only [extractEventData] at hrun
  by_cases h1 : eventExists db (clusterHash cluster) = true
  · rw [if_pos h1] at hrun
    simp at hrun
  rw [if_neg h1] at hrun
  by_cases h2 : (validateExtraction data).1 ≠ []
  · rw [if_pos h2] at hrun
    simp at hrun
  rw [if_neg h2] at hrun
  by_cases h3 : (validateExtraction data).2 ≠ [] ∧ jsIsNullish data.confidence = false ∧
      jsLtNum data.confidence ratThreeTenths = true
  · rw [if_pos h3] at hrun
    simp at hrun
  rw [if_neg h3] at hrun
  dsimp only at hrun
  injection hrun with hev
  subst hev
  have hhard := not_not.mp h2
  simp only [validateExtraction] at hhard
  have hc2 := (List.append_eq_nil.mp (List.append_eq_nil.mp (List.append_eq_nil.mp
    (List.append_eq_nil.mp (List.append_eq_nil.mp hhard).1).1).1).1).2
  have htype : jsHasStr VALID_EVENT_TYPES data.eventType = true := by
    have h := if_list_nil_neg hc2
    simp only [Bool.or_eq_true, Bool.not_eq_true', not_or, Bool.not_eq_false] at h
    exact h.2
  refine ⟨?_, ?_, (clampConfidence_bounds data.confidence).1,
    (clampConfidence_bounds data.confidence).2, ?_, ?_, ?_, ?_, ?_⟩
  · show clampSeverity data.severity = some (min 5 (max 1 (jsRound q)))
    rw [hsev]
    rfl
  · refine ⟨min 5 (max 1 (jsRound q)), ?_, ?_, ?_⟩
    · show clampSeverity data.severity = _
      rw [hsev]
      rfl
    · exact le_inf (by norm_num) le_sup_left
    · exact inf_le_left
  · show jstr data.eventType ∈ VALID_EVENT_TYPES
    exact jsHasStr_mem htype
  · show (if jsHasStr VALID_SCOPES data.scope = true then jstr data.scope else "local") ∈
      VALID_SCOPES
    by_cases hs : jsHasStr VALID_SCOPES data.scope = true
    · rw [if_pos hs]
      exact jsHasStr_mem hs
    · rw [if_neg hs]
      decide
  · intro hfalse
    show (if jsHasStr VALID_SCOPES data.scope = true then jstr data.scope else "local") = "local"
    rw [if_neg (by simp [hfalse])]
  · show (if jsHasStr VALID_VERIFICATION data.verificationStatus = true then
      jstr data.verificationStatus else "reported") ∈ VALID_VERIFICATION
    by_cases hs : jsHasStr VALID_VERIFICATION data.verificationStatus = true
    · rw [if_pos hs]
      exact jsHasStr_mem hs
    · rw [if_neg hs]
      decide
  · intro hfalse
    show (if jsHasStr VALID_VERIFICATION data.verificationStatus = true then
      jstr data.verificationStatus else "reported") = "reported"
    rw [if_neg (by simp [hfalse])]


set_option maxRecDepth 100000 in
theorem C4_persisted_event_invariants_witness :
    dataValid.severity = some (JsonV.num 4) ∧
    (extractEventData emptyDB clusterAB dataValid "raw-ok" 0).2 = some evValid ∧
    (evValid.severity = some (min 5 (max 1 (jsRound 4))) ∧
     (∃ k : Int, evValid.severity = some k ∧ 1 ≤ k ∧ k ≤ 5) ∧
     0 ≤ evValid.confidence ∧ evValid.confidence ≤ 1 ∧
     evValid.event_type ∈ VALID_EVENT_TYPES ∧
     evValid.scope ∈ VALID_SCOPES ∧
     (jsHasStr VALID_SCOPES dataValid.scope = false → evValid.scope = "local") ∧
     evValid.verification_status ∈ VALID_VERIFICATION ∧
     (jsHasStr VALID_VERIFICATION dataValid.verificationStatus = false →
       evValid.verification_status = "reported")) :=
  ⟨rfl, by decide,
   C4_persisted_event_invariants emptyDB clusterAB dataValid "raw-ok" 0 4 evValid rfl
     (by decide)⟩

set_option maxRecDepth 100000 in
/-- Counterexample to claim C4 as stated: on a response whose severity is
the string abc, every hard check passes (the loose null test is false and
both range comparisons coerce the string to NaN, on which every comparison
is false), the event is inserted, and the stored severity is NULL —
Math.round of the string is NaN, the driver binds NaN as NULL, and the
CHECK range constraint admits NULL — so not every persisted event carries
an integer severity within one and five. -/
theorem C4_string_severity_counterexample :
    (validateExtraction dataStrSev).1 = [] ∧
    (extractEventData emptyDB clusterAB dataStrSev "raw-str" 0).2 = some evStrSev ∧
    ((extractEventData emptyDB clusterAB dataStrSev "raw-str" 0).1).events = [evStrSev] ∧
    evStrSev.severity = none ∧
    ¬ ∃ k : Int, evStrSev.severity = some k ∧ 1 ≤ k ∧ k ≤ 5 :=
  ⟨by decide, by decide, by decide, rfl, by simp [evStrSev]⟩


/-- Claim C5 (code evaluation): the relevance filter applied to the raw
feed item accepts it through the two supporting body keywords, but the
ingestion pipe applies the filter to the normalized Article, which carries
no contentSnippet or content field, so on the spec boundary item the body
reads are undefined, the body is a single space, and the item is dropped. -/
theorem C5_relevance_filter_eval :
    isRelevantArticle (itemRelevanceView itemKiir) = true ∧
    isRelevantArticle (articleRelevanceView
      (normalizeArticle itemKiir "Radio Tamazuj" "local" "medium" 0)) = false ∧
    fetchFromSourceArticles [itemKiir] "Radio Tamazuj" "local" "medium" 0 = [] := by
  exact ⟨by decide, by decide, by decide⟩

theorem mem_getEventsForPeriod {db : DB} {s e : Nat} {ev : EventRec} :
    ev ∈ getEventsForPeriod db s e ↔
      (ev ∈ db.events ∧ s ≤ ev.extracted_at ∧ ev.extracted_at < e) := by
  unfold getEventsForPeriod
  rw [(List.perm_insertionSort _ _).mem_iff]
  simp [List.mem_filter]


/-- Counterexample to claim C6: at the evaluation instant of epoch second
1209600 (midnight of day 14), the row extracted at second 604800 (midnight
of day 7) is returned by the this-week query and by the last-week query:
the two windows are not disjoint. -/
theorem C6_windows_overlap_counterexample :
    eventOverlapDay ∈ getEventsForPeriod dbOverlap
      (getWeekBounds 1209600 0).1 (getWeekBounds 1209600 0).2 ∧
    eventOverlapDay ∈ getEventsForPeriod dbOverlap
      (getWeekBounds 1209600 1).1 (getWeekBounds 1209600 1).2 := by
  exact ⟨by decide, by decide⟩

/-- Claim C6 as amended: both windows are rounded to day boundaries — this
week runs from midnight seven days before now to second 86399 of the day of
now, last week from midnight fourteen days before now to second 86399 of
the day seven days before now — and the windows are NOT disjoint: their
overlap is exactly the first 86399 seconds of the day seven days before
now, and a row extracted in that stretch is counted by both queries. -/
theorem C6_window_bounds_amended (now : Nat) (h : 1209600 ≤ now) :
    getWeekBounds now 0 = (dayStart now - 604800, dayStart now + 86399) ∧
    getWeekBounds now 1 = (dayStart now - 1209600, dayStart now - 604800 + 86399) ∧
    ∀ (db : DB) (ev : EventRec),
      (ev ∈ getEventsForPeriod db (getWeekBounds now 0).1 (getWeekBounds now 0).2 ∧
       ev ∈ getEventsForPeriod db (getWeekBounds now 1).1 (getWeekBounds now 1).2) ↔
      (ev ∈ db.events ∧ dayStart now - 604800 ≤ ev.extracted_at ∧
       ev.extracted_at < dayStart now - 604800 + 86399) := by
  have hday : dayStart (now - 604800) = dayStart now - 604800 := by
    unfold dayStart
    omega
  refine ⟨?_, ?_, ?_⟩
  · show (dayStart (now - 0 * 604800) - 604800, dayStart (now - 0 * 604800) + 86399) = _
    simp
  · show (dayStart (now - 1 * 604800) - 604800, dayStart (now - 1 * 604800) + 86399) = _
    rw [one_mul, hday]
    have h2 : dayStart now - 604800 - 604800 = dayStart now - 1209600 := by omega
    rw [h2]
  · intro db ev
    have hb0 : getWeekBounds now 0 = (dayStart now - 604800, dayStart now + 86399) := by
      show (dayStart (now - 0 * 604800) - 604800, dayStart (now - 0 * 604800) + 86399) = _
      simp
    have hb1 : getWeekBounds now 1 =
        (dayStart now - 1209600, dayStart now - 604800 + 86399) := by
      show (dayStart (now - 1 * 604800) - 604800, dayStart (now - 1 * 604800) + 86399) = _
      rw [one_mul, hday]
      have h2 : dayStart now - 604800 - 604800 = dayStart now - 1209600 := by omega
      rw [h2]
    rw [hb0, hb1]
    simp only [mem_getEventsForPeriod]
    have hd : 1209600 ≤ dayStart now := by
      unfold dayStart
      omega
    constructor
    · rintro ⟨⟨hm, h1, h2⟩, _, h3, h4⟩
      exact ⟨hm, by omega, by omega⟩
    · rintro ⟨hm, h1, h2⟩
      exact ⟨⟨hm, by omega, by omega⟩, hm, by omega, by omega⟩

theorem C6_window_bounds_amended_witness :
    1209600 ≤ 1209600 ∧
    (getWeekBounds 1209600 0 = (dayStart 1209600 - 604800, dayStart 1209600 + 86399) ∧
     getWeekBounds 1209600 1 =
       (dayStart 1209600 - 1209600, dayStart 1209600 - 604800 + 86399) ∧
     ∀ (db : DB) (ev : EventRec),
       (ev ∈ getEventsForPeriod db (getWeekBounds 1209600 0).1 (getWeekBounds 1209600 0).2 ∧
        ev ∈ getEventsForPeriod db (getWeekBounds 1209600 1).1 (getWeekBounds 1209600 1).2) ↔
       (ev ∈ db.events ∧ dayStart 1209600 - 604800 ≤ ev.extracted_at ∧
        ev.extracted_at < dayStart 1209600 - 604800 + 86399)) :=
  ⟨by decide, C6_window_bounds_amended 1209600 (by decide)⟩

theorem groupGreedy_flatten_perm {β : Type} (pred : β → β → Bool) :
    ∀ (fuel : Nat) (l : List β), l.length ≤ fuel →
      ((groupGreedy pred fuel l).flatten).Perm l := by
  intro fuel
  induction fuel with
  | zero =>
    intro l hl
    have hnil : l = [] := List.eq_nil_of_length_eq_zero (by omega)
    subst hnil
    simp [groupGreedy]
  | succ fuel ih =>
    intro l hl
    cases l with
    | nil => simp [groupGreedy]
    | cons x rest =>
      simp only [groupGreedy, List.flatten_cons, List.cons_append]
      refine List.Perm.cons x ?_
      have hlen : (rest.filter (fun y => !pred x y)).length ≤ fuel := by
        have := List.length_filter_le (fun y => !pred x y) rest
        simp at hl
        omega
      have h1 := ih (rest.filter (fun y => !pred x y)) hlen
      exact ((h1.append_left (rest.filter (fun y => pred x y))).trans
        (List.filter_append_perm _ rest))

theorem groupGreedy_nonempty {β : Type} (pred : β → β → Bool) :
    ∀ (fuel : Nat) (l : List β) (g : List β), g ∈ groupGreedy pred fuel l → g ≠ [] := by
  intro fuel
  induction fuel with
  | zero => intro l g hg; simp [groupGreedy] at hg
  | succ fuel ih =>
    intro l g hg
    cases l with
    | nil => simp [groupGreedy] at hg
    | cons x rest =>
      simp only [groupGreedy, List.mem_cons] at hg
      rcases hg with hg | hg
      · subst hg; simp
      · exact ih _ _ hg

theorem clusters_flatten_perm (groups : List (List (Article × List (String × Nat)))) :
    ((groups.map (fun g => (mkCluster (g.map (fun p => p.1))).articles)).flatten).Perm
      ((groups.flatten).map (fun p => p.1)) := by
  induction groups with
  | nil => simp
  | cons g rest ih =>
    simp only [List.map_cons, List.flatten_cons, List.map_append]
    refine List.Perm.append ?_ ih
    show ((g.map (fun p => p.1)).insertionSort (fun a b => relDateLe a b = true)).Perm _
    exact List.perm_insertionSort _ _

/-- Claim C10: the clusters returned by clusterArticles partition the input
articles — taken together, the article lists of the returned clusters are a
permutation of the input (no article dropped or duplicated), and every
returned cluster is non-empty, regardless of the similarity threshold. -/
theorem C10_clusterArticles_partition (articles : List Article) (t : Rat) :
    (((clusterArticles articles t).map (fun c => c.articles)).flatten).Perm articles ∧
    ∀ cl ∈ clusterArticles articles t, cl.articles ≠ [] := by
  simp only [clusterArticles]
  constructor
  · refine (((List.perm_insertionSort _ _).map (fun c : Cluster => c.articles)).flatten).trans ?_
    rw [List.map_map, List.map_map]
    refine (clusters_flatten_perm _).trans ?_
    refine (List.Perm.map _ (groupGreedy_flatten_perm _ _ _ le_rfl)).trans ?_
    rw [List.map_map]
    have h5 : articles.map ((fun p : Article × List (String × Nat) => p.1) ∘
        (fun a => (a, getWordFrequency (tokenize (a.title ++ " " ++ a.description))))) =
        articles := by
      have : ((fun p : Article × List (String × Nat) => p.1) ∘
          (fun a : Article =>
            (a, getWordFrequency (tokenize (a.title ++ " " ++ a.description))))) =
          (fun a => a) := rfl
      rw [this, List.map_id']
    rw [h5]
  · intro cl hcl
    have hcl2 := (List.perm_insertionSort _ _).mem_iff.mp hcl
    rcases List.mem_map.mp hcl2 with ⟨g, hg, hmk⟩
    rcases List.mem_map.mp hg with ⟨g0, hg0, hmap⟩
    have hne : g ≠ [] := by
      subst hmap
      intro hnil
      exact groupGreedy_nonempty _ _ _ _ hg0 (List.map_eq_nil_iff.mp hnil)
    subst hmk
    show (g.insertionSort (fun a b => relDateLe a b = true)) ≠ []
    intro hnil
    have hlen := (List.perm_insertionSort (fun a b => relDateLe a b = true) g).length_eq
    rw [hnil] at hlen
    exact hne (List.eq_nil_of_length_eq_zero (by simpa using hlen.symm))

theorem hasPct_append (a b : String) : hasPct (a ++ b) = (hasPct a || hasPct b) := by
  show (a ++ b).data.any (fun c => c == '%') = _
  rw [String.data_append, List.any_append]
  rfl

theorem digitChar_ne_pct (m : Nat) : Nat.digitChar m ≠ '%' := by
  by_cases h : m < 16
  · interval_cases m <;> decide
  · unfold Nat.digitChar
    iterate 16 rw [if_neg (by omega)]
    decide

theorem toDigitsCore_mem (b : Nat) :
    ∀ (fuel n : Nat) (ds : List Char) (c : Char), c ∈ Nat.toDigitsCore b fuel n ds →
      c ∈ ds ∨ ∃ m, c = Nat.digitChar m := by
  intro fuel
  induction fuel with
  | zero => intro n ds c h; exact Or.inl (by simpa [Nat.toDigitsCore] using h)
  | succ fuel ih =>
    intro n ds c h
    simp only [Nat.toDigitsCore] at h
    by_cases h2 : n / b = 0
    · simp [h2] at h
      rcases h with h | h
      · exact Or.inr ⟨n % b, h⟩
      · exact Or.inl h
    · simp [h2] at h
      rcases ih (n / b) (Nat.digitChar (n % b) :: ds) c h with h3 | h3
      · rcases List.mem_cons.mp h3 with h4 | h4
        · exact Or.inr ⟨n % b, h4⟩
        · exact Or.inl h4
      · exact Or.inr h3

theorem natRepr_no_pct (n : Nat) : hasPct (Nat.repr n) = false := by
  rw [Bool.eq_false_iff]
  intro hcon
  rcases List.any_eq_true.mp hcon with ⟨c, hc, hceq⟩
  have hc2 : c ∈ Nat.toDigits 10 n := by
    simpa [Nat.repr, List.asString] using hc
  have hc3 := toDigitsCore_mem 10 (n + 1) n [] c (by simpa [Nat.toDigits] using hc2)
  rcases hc3 with h | ⟨m, rfl⟩
  · simp at h
  · exact digitChar_ne_pct m (by simpa using hceq)

theorem intRepr_no_pct (i : Int) : hasPct (Int.repr i) = false := by
  cases i with
  | ofNat m => exact natRepr_no_pct m
  | negSucc m =>
    show hasPct ("-" ++ Nat.repr (m + 1)) = false
    rw [hasPct_append, natRepr_no_pct]
    decide

theorem showTenths_no_pct (k : Int) : hasPct (showTenths k) = false := by
  unfold showTenths
  by_cases h : (k % 10 == 0) = true
  · rw [if_pos h]
    exact intRepr_no_pct _
  · rw [if_neg h]
    rw [hasPct_append, hasPct_append, hasPct_append, natRepr_no_pct, natRepr_no_pct]
    by_cases h2 : k < 0 <;> simp [h2] <;> decide

theorem showOptTenths_no_pct (x : Option Int) : hasPct (showOptTenths x) = false := by
  cases x with
  | none => decide
  | some k => exact showTenths_no_pct k

theorem mem_trimCharList {p : Char → Bool} {l : List Char} {c : Char}
    (h : c ∈ trimCharList p l) : c ∈ l := by
  unfold trimCharList at h
  rw [List.mem_reverse] at h
  have h2 := (List.dropWhile_sublist p).mem h
  rw [List.mem_reverse] at h2
  exact (List.dropWhile_sublist p).mem h2

theorem jsTrim_no_pct {s : String} (h : hasPct s = false) : hasPct (jsTrim s) = false := by
  rw [Bool.eq_false_iff] at h ⊢
  intro hcon
  apply h
  rcases List.any_eq_true.mp hcon with ⟨c, hc, hceq⟩
  exact List.any_eq_true.mpr ⟨c, mem_trimCharList hc, hceq⟩

theorem aliasValues_no_pct : ∀ pr ∈ ACTOR_ALIASES, hasPct pr.2 = false := by decide

theorem normalizeActor_no_pct {s : String} (h : hasPct s = false) :
    hasPct (normalizeActor s) = false := by
  unfold normalizeActor
  cases hf : aliasLookup (jsTrim (jsToLower s)) with
  | some v =>
    unfold aliasLookup at hf
    cases hf2 : ACTOR_ALIASES.find? (fun p => p.1 == jsTrim (jsToLower s)) with
    | none => rw [hf2] at hf; simp at hf
    | some pr =>
      rw [hf2] at hf
      simp at hf
      subst hf
      exact aliasValues_no_pct pr (List.mem_of_find?_eq_some hf2)
  | none => exact jsTrim_no_pct h

theorem foldl_append_no_pct {β : Type} (f : β → String) (rows : List β) :
    ∀ (init : String), hasPct init = false →
      (∀ r ∈ rows, hasPct (f r) = false) →
      hasPct (rows.foldl (fun acc r => acc ++ f r) init) = false := by
  induction rows with
  | nil => intro init hinit _; exact hinit
  | cons a rest ih =>
    intro init hinit hrow
    show hasPct (rest.foldl (fun acc r => acc ++ f r) (init ++ f a)) = false
    refine ih (init ++ f a) ?_ (fun r hr => hrow r (List.mem_cons_of_mem a hr))
    rw [hasPct_append, hinit, hrow a (List.mem_cons_self a rest)]
    rfl

theorem dedupFirstGo_sub {α : Type} [DecidableEq α] :
    ∀ (seen l : List α) (x : α), x ∈ dedupFirstGo seen l → x ∈ l := by
  intro seen l
  induction l generalizing seen with
  | nil => intro x hx; simp [dedupFirstGo] at hx
  | cons a rest ih =>
    intro x hx
    simp only [dedupFirstGo] at hx
    by_cases ha : a ∈ seen
    · rw [if_pos ha] at hx
      exact List.mem_cons_of_mem a (ih seen x hx)
    · rw [if_neg ha] at hx
      rcases List.mem_cons.mp hx with h | h
      · exact h ▸ List.mem_cons_self a rest
      · exact List.mem_cons_of_mem a (ih (a :: seen) x h)

theorem dedupFirst_sub {α : Type} [DecidableEq α] {l : List α} {x : α}
    (h : x ∈ dedupFirst l) : x ∈ l := dedupFirstGo_sub [] l x h

theorem toplineRowText_no_pct {t : TypeShift} (ht : hasPct t.type = false) :
    hasPct (toplineRowText true t) = false := by
  unfold toplineRowText
  rw [if_pos rfl]
  rw [hasPct_append, hasPct_append, hasPct_append, hasPct_append, hasPct_append,
    hasPct_append, ht, natRepr_no_pct, showOptTenths_no_pct]
  decide

theorem hotRegionRowText_no_pct {r : HotRegion} (hr : hasPct r.region = false) :
    hasPct (hotRegionRowText true r) = false := by
  unfold hotRegionRowText
  rw [if_pos rfl]
  rw [hasPct_append, hasPct_append, hasPct_append, hasPct_append, hasPct_append,
    hasPct_append, hr, natRepr_no_pct, showTenths_no_pct]
  decide

theorem actorRowText_no_pct {a : ActorSpike} (ha : hasPct a.actor = false) :
    hasPct (actorRowText true a) = false := by
  unfold actorRowText
  rw [if_pos rfl]
  rw [hasPct_append, hasPct_append, hasPct_append, hasPct_append, ha, natRepr_no_pct]
  decide

theorem renderToplineText_no_pct (d : Digest) (hbw : d.topline.baselineWeak = true)
    (hrows : ∀ t ∈ d.topline.typeShifts, hasPct t.type = false) :
    hasPct (renderToplineText d) = false := by
  unfold renderToplineText
  rw [hbw]
  dsimp only
  rw [if_pos rfl]
  have h1 : hasPct "TOPLINE\n" = false := by decide
  have h2 : hasPct "  (Baseline week — prior data insufficient for trends)\n" = false := by
    decide
  have h3 : hasPct "  Total: " = false := by decide
  have h4 : hasPct " events tracked\n" = false := by decide
  simp only [hasPct_append, h1, h2, h3, h4, natRepr_no_pct, Bool.false_or, Bool.or_false]
  exact foldl_append_no_pct _ _ "" (by decide)
    (fun t ht => toplineRowText_no_pct (hrows t ht))

theorem renderHotRegionsText_no_pct (d : Digest) (hbw : d.topline.baselineWeak = true)
    (hrows : ∀ r ∈ d.hotRegions, hasPct r.region = false) :
    hasPct (renderHotRegionsText d) = false := by
  unfold renderHotRegionsText
  rw [hbw]
  dsimp only
  have h1 : hasPct "HOT REGIONS\n" = false := by decide
  simp only [hasPct_append, h1, Bool.false_or]
  exact foldl_append_no_pct _ _ "" (by decide)
    (fun r hr => hotRegionRowText_no_pct (hrows r (List.mem_of_mem_take hr)))

theorem renderActorActivityText_no_pct (d : Digest) (hbw : d.topline.baselineWeak = true)
    (hrows : ∀ a ∈ d.actorSpikes, hasPct a.actor = false) :
    hasPct (renderActorActivityText d) = false := by
  unfold renderActorActivityText
  rw [hbw]
  dsimp only
  have h1 : hasPct "\nACTOR ACTIVITY\n" = false := by decide
  simp only [hasPct_append, h1, Bool.false_or]
  exact foldl_append_no_pct _ _ "" (by decide)
    (fun a ha => actorRowText_no_pct
      (hrows a ((List.mem_filter.mp (List.mem_of_mem_take ha)).1)))

theorem mem_getTypeCounts_event {db : DB} {s e : Nat} {tc : TypeCount}
    (h : tc ∈ getTypeCountsForPeriod db s e) :
    ∃ ev ∈ db.events, tc.event_type = ev.event_type := by
  simp only [getTypeCountsForPeriod] at h
  have h2 := (List.perm_insertionSort _ _).mem_iff.mp h
  rcases List.mem_map.mp h2 with ⟨k, hk, heq⟩
  rcases List.mem_map.mp (dedupFirst_sub hk) with ⟨ev, hev, hkeq⟩
  refine ⟨ev, (List.mem_filter.mp hev).1, ?_⟩
  rw [← heq]
  exact hkeq.symm

theorem mem_getRegionSeverity_event {db : DB} {s e : Nat} {rs : RegionSeverity}
    (h : rs ∈ getRegionSeverityForPeriod db s e) :
    ∃ ev ∈ db.events, ∃ r ∈ ev.regions, rs.region = jsTrim r := by
  simp only [getRegionSeverityForPeriod] at h
  have h2 := (List.perm_insertionSort _ _).mem_iff.mp h
  rcases List.mem_map.mp h2 with ⟨k, hk, heq⟩
  rcases List.mem_map.mp (dedupFirst_sub hk) with ⟨pr, hpr, hfst⟩
  unfold regionPairs at hpr
  rcases List.mem_flatMap.mp hpr with ⟨ev, hev, hprin⟩
  rcases List.mem_map.mp hprin with ⟨r1, hr1, hpr2⟩
  rcases List.mem_map.mp (List.mem_filter.mp hr1).1 with ⟨r0, hr0, hr0eq⟩
  refine ⟨ev, (List.mem_filter.mp hev).1, r0, hr0, ?_⟩
  rw [← heq]
  have e1 : k = r1 := by rw [← hfst, ← hpr2]
  show k = jsTrim r0
  rw [e1, ← hr0eq]

theorem mem_getActorCounts_occ {db : DB} {s e : Nat} {ac : ActorCount}
    (h : ac ∈ getActorCountsForPeriod db s e) :
    ∃ ev ∈ db.events, ∃ a0 ∈ ev.actors_normalized.getD ev.actors, ac.actor = jsTrim a0 := by
  simp only [getActorCountsForPeriod] at h
  have h2 := (List.perm_insertionSort _ _).mem_iff.mp h
  rcases List.mem_map.mp h2 with ⟨k, hk, heq⟩
  have hk2 := dedupFirst_sub hk
  unfold actorOccurrences at hk2
  rcases List.mem_flatMap.mp hk2 with ⟨ev, hev, hkin⟩
  rcases List.mem_map.mp (List.mem_filter.mp hkin).1 with ⟨a0, ha0, ha0eq⟩
  refine ⟨ev, (List.mem_filter.mp hev).1, a0, ha0, ?_⟩
  rw [← heq]
  show k = jsTrim a0
  rw [← ha0eq]

theorem mem_renormalize {lst : List ActorCount} {ac : ActorCount}
    (h : ac ∈ renormalizeActorList lst) :
    ∃ b ∈ lst, ac.actor = normalizeActor b.actor := by
  simp only [renormalizeActorList] at h
  have h2 := (List.perm_insertionSort _ _).mem_iff.mp h
  rcases List.mem_map.mp h2 with ⟨k, hk, heq⟩
  rcases List.mem_map.mp (dedupFirst_sub hk) with ⟨pr, hpr, hfst⟩
  rcases List.mem_map.mp hpr with ⟨b, hb, hbeq⟩
  refine ⟨b, hb, ?_⟩
  rw [← heq]
  show k = normalizeActor b.actor
  rw [← hfst, ← hbeq]

/-- Claim C7: whenever the last-week event count is below five, the digest
is generated with baselineWeak true and every percent-change value is
suppressed — the rendered topline, hot-regions and actor sections contain
no percent character (given that the stored type, region and actor strings
contain none, which the renderer copies verbatim). -/
theorem C7_baseline_weak_suppresses_percent (db : DB) (now : Nat)
    (hclean : dbNoPct db = true)
    (hlw : (getEventsForPeriod db (getWeekBounds now 1).1 (getWeekBounds now 1).2).length <
      MIN_BASELINE_EVENTS) :
    (generateDigest db now).topline.baselineWeak = true ∧
    hasPct (renderToplineText (generateDigest db now)) = false ∧
    hasPct (renderHotRegionsText (generateDigest db now)) = false ∧
    hasPct (renderActorActivityText (generateDigest db now)) = false := by
  have hbw : (generateDigest db now).topline.baselineWeak = true := decide_eq_true hlw
  have hev : ∀ ev ∈ db.events, hasPct ev.event_type = false ∧
      (∀ r ∈ ev.regions, hasPct r = false) ∧
      (∀ a ∈ ev.actors, hasPct a = false) ∧
      (∀ a ∈ ev.actors_normalized.getD [], hasPct a = false) := by
    intro ev hevm
    have h2 := List.all_eq_true.mp hclean ev hevm
    simp only [Bool.and_eq_true, Bool.not_eq_true', List.all_eq_true] at h2
    exact ⟨h2.1.1.1, fun r hr => h2.1.1.2 r hr, fun a ha => h2.1.2 a ha,
      fun a ha => h2.2 a ha⟩
  have htypes : ∀ t ∈ (generateDigest db now).topline.typeShifts, hasPct t.type = false := by
    intro t ht
    simp only [generateDigest] at ht
    rcases List.mem_append.mp ht with h | h
    · rcases List.mem_map.mp h with ⟨tc, htc, heq⟩
      obtain ⟨ev, hevm, hteq⟩ := mem_getTypeCounts_event htc
      rw [← heq]
      show hasPct tc.event_type = false
      rw [hteq]
      exact (hev ev hevm).1
    · rcases List.mem_map.mp h with ⟨lt, hlt, heq⟩
      obtain ⟨ev, hevm, hteq⟩ := mem_getTypeCounts_event (List.mem_filter.mp hlt).1
      rw [← heq]
      show hasPct lt.event_type = false
      rw [hteq]
      exact (hev ev hevm).1
  have hregs : ∀ r ∈ (generateDigest db now).hotRegions, hasPct r.region = false := by
    intro r hr
    simp only [generateDigest] at hr
    rcases List.mem_map.mp hr with ⟨rs, hrs, heq⟩
    obtain ⟨ev, hevm, r0, hr0, hreq⟩ := mem_getRegionSeverity_event (List.mem_of_mem_take hrs)
    rw [← heq]
    show hasPct rs.region = false
    rw [hreq]
    exact jsTrim_no_pct ((hev ev hevm).2.1 r0 hr0)
  have hacts : ∀ a ∈ (generateDigest db now).actorSpikes, hasPct a.actor = false := by
    intro a ha
    simp only [generateDigest] at ha
    have ha2 := (List.perm_insertionSort _ _).mem_iff.mp ha
    rcases List.mem_map.mp ha2 with ⟨ac, hac, heq⟩
    obtain ⟨b, hb, haceq⟩ := mem_renormalize (List.mem_of_mem_take hac)
    obtain ⟨ev, hevm, a0, ha0, hbeq⟩ := mem_getActorCounts_occ hb
    rw [← heq]
    show hasPct ac.actor = false
    rw [haceq, hbeq]
    have h0 : hasPct a0 = false := by
      cases hn : ev.actors_normalized with
      | none =>
        rw [hn] at ha0
        exact (hev ev hevm).2.2.1 a0 ha0
      | some l =>
        rw [hn] at ha0
        have := (hev ev hevm).2.2.2
        rw [hn] at this
        exact this a0 ha0
    exact normalizeActor_no_pct (jsTrim_no_pct h0)
  exact ⟨hbw, renderToplineText_no_pct _ hbw htypes,
    renderHotRegionsText_no_pct _ hbw hregs,
    renderActorActivityText_no_pct _ hbw hacts⟩

theorem C7_baseline_weak_suppresses_percent_witness :
    dbNoPct emptyDB = true ∧
    (getEventsForPeriod emptyDB (getWeekBounds 1209600 1).1
      (getWeekBounds 1209600 1).2).length < MIN_BASELINE_EVENTS ∧
    ((generateDigest emptyDB 1209600).topline.baselineWeak = true ∧
     hasPct (renderToplineText (generateDigest emptyDB 1209600)) = false ∧
     hasPct (renderHotRegionsText (generateDigest emptyDB 1209600)) = false ∧
     hasPct (renderActorActivityText (generateDigest emptyDB 1209600)) = false) :=
  ⟨by decide, by decide,
   C7_baseline_weak_suppresses_percent emptyDB 1209600 (by decide) (by decide)⟩
